import Mathlib

set_option maxRecDepth 16384

/-!
Verification development for the travel-assistant plan-generation pipeline
(`llm.py`, `schema.py`, `providers.py`).  Python values are embedded as the
inductive `PyVal`; Python numbers (int/float) are embedded as the
kernel-computable rational type `Q` (exact arithmetic; binary floating-point
representation artifacts are out of scope, no claim here depends on them).
All definitions are translated from the source files; definitions that
instead transcribe a specification sentence are named with a `claim` or
`spec` prefix and documented as such.
-/

/-- Kernel-computable gcd: Euclid with explicit fuel (structural recursion),
so that proofs by `decide` / `rfl` can evaluate it. -/
def gcdFuel : Nat → Nat → Nat → Nat
  | 0, a, _ => a
  | f + 1, a, b => if b = 0 then a else gcdFuel f b (a % b)

/-- gcd with enough fuel (Euclid needs at most `b + 1` steps). -/
def qgcd (a b : Nat) : Nat := gcdFuel (b + 1) a b

/-- Exact rational numbers with a kernel-computable normal form:
numerator `n`, positive denominator `d`, kept reduced by `mkQ`.
Embeds Python's int/float arithmetic used by the pipeline. -/
structure Q where
  n : Int
  d : Nat
  deriving Repr, DecidableEq

/-- Build a reduced rational from numerator and (nonzero) denominator. -/
def mkQ (n : Int) (d : Nat) : Q :=
  if d = 0 then ⟨0, 1⟩
  else
    let g := qgcd n.natAbs d
    if g = 0 then ⟨0, 1⟩ else ⟨n / (g : Int), d / g⟩

def Q.ofInt (i : Int) : Q := ⟨i, 1⟩

instance : OfNat Q k where
  ofNat := ⟨(k : Int), 1⟩

def Q.add (a b : Q) : Q := mkQ (a.n * (b.d : Int) + b.n * (a.d : Int)) (a.d * b.d)

def Q.mul (a b : Q) : Q := mkQ (a.n * b.n) (a.d * b.d)

def Q.sub (a b : Q) : Q := mkQ (a.n * (b.d : Int) - b.n * (a.d : Int)) (a.d * b.d)

/-- Division; denominators stay positive via sign transfer. -/
def Q.div (a b : Q) : Q :=
  if b.n = 0 then ⟨0, 1⟩
  else if b.n < 0 then mkQ (-(a.n * (b.d : Int))) (a.d * b.n.natAbs)
  else mkQ (a.n * (b.d : Int)) (a.d * b.n.natAbs)

/-- The order on represented values (denominators are positive by
construction, so cross multiplication is the value order). -/
def Q.Le (a b : Q) : Prop := a.n * (b.d : Int) ≤ b.n * (a.d : Int)

instance (a b : Q) : Decidable (Q.Le a b) := by unfold Q.Le; infer_instance

def Q.leB (a b : Q) : Bool := decide (Q.Le a b)

/-- The strict order on represented values. -/
def Q.Lt (a b : Q) : Prop := a.n * (b.d : Int) < b.n * (a.d : Int)

instance (a b : Q) : Decidable (Q.Lt a b) := by unfold Q.Lt; infer_instance

def Q.ltB (a b : Q) : Bool := decide (Q.Lt a b)

/-- Floor of the represented value (used by Python `round`). -/
def Q.floor (a : Q) : Int := Int.fdiv a.n (a.d : Int)

/-- Python `round(x)` (no digits): nearest integer, ties to even
(banker's rounding), as an integer. -/
def pyRound (a : Q) : Int :=
  let f := a.floor
  let r2 : Int := 2 * (a.n - f * (a.d : Int))
  if r2 < (a.d : Int) then f
  else if r2 > (a.d : Int) then f + 1
  else if f % 2 = 0 then f else f + 1

/-- Python `round(x, 1)`: one decimal digit, ties to even. -/
def pyRound1 (a : Q) : Q := mkQ (pyRound (Q.mul a 10)) 10

/-- Python `int(round(x))` producing an embedded number. -/
def pyRoundQ (a : Q) : Q := Q.ofInt (pyRound a)

/-- String rendering of a number for f-string interpolation.  Exact for
integers (the only case exercised by the pipeline's f-strings); non-integer
values render as `num/den`, a model simplification never relied upon. -/
def Q.render (a : Q) : String :=
  if a.d = 1 then toString a.n else toString a.n ++ "/" ++ toString a.d

/-- Embedded Python values: the results of `json.loads` and the dict/list
structures the pipeline manipulates.  Dicts are insertion-ordered key/value
lists, as in Python. -/
inductive PyVal where
  | str (s : String)
  | num (q : Q)
  | bool (b : Bool)
  | none
  | list (xs : List PyVal)
  | dict (kvs : List (String × PyVal))
  deriving Repr

/-- Python dict lookup `d.get(k)` (first matching key; dicts built by
`pySetKey` have unique keys). -/
def pyGet (kvs : List (String × PyVal)) (k : String) : Option PyVal :=
  match kvs with
  | [] => Option.none
  | (k1, v) :: rest => if k1 = k then Option.some v else pyGet rest k

/-- Python dict assignment `d[k] = v`: overwrite in place if the key exists
(keeping its position), else append. -/
def pySetKey (kvs : List (String × PyVal)) (k : String) (v : PyVal) :
    List (String × PyVal) :=
  match kvs with
  | [] => [(k, v)]
  | (k1, w) :: rest =>
    if k1 = k then (k1, v) :: rest else (k1, w) :: pySetKey rest k v

/-- Python key-membership test `k in d` for dicts. -/
def pyHasKey (kvs : List (String × PyVal)) (k : String) : Bool :=
  match kvs with
  | [] => false
  | (k1, _) :: rest => k1 = k || pyHasKey rest k

/-- Python truthiness: `None`, `False`, `0`, `""`, `[]`, `{}` are falsy. -/
def pyTruthy : PyVal → Bool
  | .str s => s ≠ ""
  | .num q => q.n ≠ 0
  | .bool b => b
  | .none => false
  | .list xs => !xs.isEmpty
  | .dict kvs => !kvs.isEmpty

/-! ### Character and Python-string helpers -/

/-- The left brace character (written via its code point). -/
def lbraceC : Char := Char.ofNat 123

/-- The right brace character (written via its code point). -/
def rbraceC : Char := Char.ofNat 125

/-- The backtick character (written via its code point). -/
def btickC : Char := Char.ofNat 96

/-- The double-quote character (written via its code point). -/
def quoteC : Char := Char.ofNat 34

/-- The backslash character (written via its code point). -/
def bslashC : Char := Char.ofNat 92

/-- JSON whitespace (the characters `json.loads` skips between tokens). -/
def jsonWsChar (c : Char) : Bool :=
  c = ' ' || c = '\t' || c = '\n' || c = '\r'

/-- Python `str.strip()` whitespace (ASCII part; the pipeline never feeds
non-ASCII whitespace to `strip`). -/
def pyWsChar (c : Char) : Bool :=
  c = ' ' || c = '\t' || c = '\n' || c = '\r' ||
    c = Char.ofNat 11 || c = Char.ofNat 12

/-- Python `text.strip()`: drop `pyWsChar` from both ends. -/
def pystrip (cs : List Char) : List Char :=
  List.rdropWhile pyWsChar (List.dropWhile pyWsChar cs)

/-- Python `text.strip(backtick)`: drop backticks from both ends. -/
def stripTicks (cs : List Char) : List Char :=
  List.rdropWhile (fun c => c = btickC) (List.dropWhile (fun c => c = btickC) cs)

/-- Python `text.replace("json", "", 1)`: remove the first occurrence of
the substring `json`, anywhere in the text. -/
def replFirstJson : List Char → List Char
  | [] => []
  | c :: rest =>
    if List.isPrefixOf ("json".data) (c :: rest) then (c :: rest).drop 4
    else c :: replFirstJson rest

/-- Python `text.find(ch)` (as an `Option` instead of `-1`). -/
def firstIdxOf (ch : Char) : List Char → Option Nat
  | [] => Option.none
  | c :: rest =>
    if c = ch then Option.some 0 else (firstIdxOf ch rest).map (· + 1)

/-- Python `text.rfind(ch)` (as an `Option` instead of `-1`). -/
def lastIdxOf (ch : Char) (cs : List Char) : Option Nat :=
  (firstIdxOf ch cs.reverse).map (fun i => cs.length - 1 - i)

/-- Python slice `text[i:j]`. -/
def pySlice (cs : List Char) (i j : Nat) : List Char := (cs.drop i).take (j - i)

/-- ASCII upper-casing, Python `str.upper()` on the ASCII error texts the
pipeline matches against. -/
def pyUpper (cs : List Char) : List Char := cs.map Char.toUpper

/-- Substring containment, Python `needle in text`. -/
def containsSub (pat : List Char) : List Char → Bool
  | [] => List.isPrefixOf pat []
  | c :: rest => List.isPrefixOf pat (c :: rest) || containsSub pat rest

/-! ### Model of `json.loads`

A recursive-descent JSON parser producing `PyVal`, faithful to `json.loads`
on the fragments the pipeline exercises: objects, arrays, strings with the
standard escapes, numbers, literals, strict comma/colon structure, no
trailing commas, later duplicate object keys overwriting earlier ones.
Two deliberate model simplifications, neither observable through
`safe_json_parse` (every candidate it parses is `strip()`-ed first or
retried on the stripped text): edge whitespace is the Python `strip` set
rather than the JSON set, and `\uXXXX` surrogate pairs are not combined. -/

/-- Map an escape character to the character it denotes. -/
def escMap (c : Char) : Option Char :=
  if c = quoteC then Option.some quoteC
  else if c = bslashC then Option.some bslashC
  else if c = '/' then Option.some '/'
  else if c = 'b' then Option.some (Char.ofNat 8)
  else if c = 'f' then Option.some (Char.ofNat 12)
  else if c = 'n' then Option.some '\n'
  else if c = 'r' then Option.some '\r'
  else if c = 't' then Option.some '\t'
  else Option.none

/-- Hexadecimal digit value. -/
def hexVal (c : Char) : Option Nat :=
  if '0' ≤ c ∧ c ≤ '9' then Option.some (c.toNat - 48)
  else if 'a' ≤ c ∧ c ≤ 'f' then Option.some (c.toNat - 87)
  else if 'A' ≤ c ∧ c ≤ 'F' then Option.some (c.toNat - 55)
  else Option.none

/-- Parse the body of a JSON string (after the opening quote), returning
its characters and the rest of the input. -/
def pstrChars : List Char → Option (List Char × List Char)
  | [] => Option.none
  | c :: rest =>
    if c = quoteC then Option.some ([], rest)
    else if c = bslashC then
      match rest with
      | [] => Option.none
      | e :: rest2 =>
        if e = 'u' then
          match rest2 with
          | h1 :: h2 :: h3 :: h4 :: rest3 =>
            match hexVal h1, hexVal h2, hexVal h3, hexVal h4 with
            | Option.some a, Option.some b, Option.some cc, Option.some d =>
              (pstrChars rest3).map
                (fun r => (Char.ofNat (((a * 16 + b) * 16 + cc) * 16 + d) :: r.1, r.2))
            | _, _, _, _ => Option.none
          | _ => Option.none
        else
          match escMap e with
          | Option.some ec => (pstrChars rest2).map (fun r => (ec :: r.1, r.2))
          | Option.none => Option.none
    else if c.toNat < 32 then Option.none
    else (pstrChars rest).map (fun r => (c :: r.1, r.2))

/-- Digits to a natural number. -/
def digitsToNat (ds : List Char) : Nat :=
  ds.foldl (fun a c => a * 10 + (c.toNat - 48)) 0

/-- Parse a JSON number starting at the input head (which is a digit or a
minus sign), returning its exact value. -/
def pnum (cs : List Char) : Option (Q × List Char) :=
  let signed := match cs with
    | c :: rest => if c = '-' then (true, rest) else (false, cs)
    | [] => (false, cs)
  let neg := signed.1
  let cs1 := signed.2
  let ds := cs1.takeWhile Char.isDigit
  let cs2 := cs1.dropWhile Char.isDigit
  if ds.isEmpty then Option.none
  else if decide (1 < ds.length) && decide (ds.head? = Option.some '0') then Option.none
  else
    let ip : Nat := digitsToNat ds
    let fracStep : Option (Nat × Nat × List Char) :=
      match cs2 with
      | '.' :: cs3 =>
        let fs := cs3.takeWhile Char.isDigit
        if fs.isEmpty then Option.none
        else Option.some (digitsToNat fs, fs.length, cs3.dropWhile Char.isDigit)
      | _ => Option.some (0, 0, cs2)
    match fracStep with
    | Option.none => Option.none
    | Option.some (fv, fl, cs4) =>
      let expStep : Option (Int × List Char) :=
        match cs4 with
        | e :: cs5 =>
          if e = 'e' || e = 'E' then
            let esigned := match cs5 with
              | k :: cs6 =>
                if k = '+' then (false, cs6)
                else if k = '-' then (true, cs6) else (false, cs5)
              | [] => (false, cs5)
            let es := esigned.2.takeWhile Char.isDigit
            if es.isEmpty then Option.none
            else
              let ev : Int := (digitsToNat es : Int)
              Option.some (if esigned.1 then -ev else ev, esigned.2.dropWhile Char.isDigit)
          else Option.some (0, cs4)
        | [] => Option.some (0, cs4)
      match expStep with
      | Option.none => Option.none
      | Option.some (ev, cs6) =>
        let mant : Int := (ip : Int) * (10 ^ fl : Nat) + (fv : Int)
        let mant := if neg then -mant else mant
        let base : Q := mkQ mant (10 ^ fl)
        let value :=
          match ev with
          | Int.ofNat k => Q.mul base (Q.ofInt ((10 : Int) ^ k))
          | Int.negSucc k => Q.div base (Q.ofInt ((10 : Int) ^ (k + 1)))
        Option.some (value, cs6)

/-- Parser modes: a single value, array elements, or object members. -/
inductive JMode where
  | value
  | arr0
  | arrSep (acc : List PyVal)
  | obj0
  | objSep (acc : List (String × PyVal))

/-- Assemble collected object members with Python-dict duplicate-key
semantics (later value wins, first position kept). -/
def buildDict (pairs : List (String × PyVal)) : List (String × PyVal) :=
  pairs.foldl (fun d kv => pySetKey d kv.1 kv.2) []

/-- The fueled JSON parser core. -/
def pj : Nat → JMode → List Char → Option (PyVal × List Char)
  | 0, _, _ => Option.none
  | f + 1, JMode.value, cs =>
    let cs := cs.dropWhile jsonWsChar
    match cs with
    | [] => Option.none
    | c :: rest =>
      if c = quoteC then (pstrChars rest).map (fun r => (PyVal.str (String.mk r.1), r.2))
      else if c = lbraceC then pj f JMode.obj0 rest
      else if c = '[' then pj f JMode.arr0 rest
      else if c = 'n' then
        if List.isPrefixOf ("ull".data) rest then Option.some (PyVal.none, rest.drop 3)
        else Option.none
      else if c = 't' then
        if List.isPrefixOf ("rue".data) rest then Option.some (PyVal.bool true, rest.drop 3)
        else Option.none
      else if c = 'f' then
        if List.isPrefixOf ("alse".data) rest then Option.some (PyVal.bool false, rest.drop 4)
        else Option.none
      else if c = '-' || c.isDigit then (pnum (c :: rest)).map (fun r => (PyVal.num r.1, r.2))
      else Option.none
  | f + 1, JMode.arr0, cs =>
    let cs := cs.dropWhile jsonWsChar
    match cs with
    | [] => Option.none
    | c :: rest =>
      if c = ']' then Option.some (PyVal.list [], rest)
      else
        match pj f JMode.value (c :: rest) with
        | Option.some (v, rest2) => pj f (JMode.arrSep [v]) rest2
        | Option.none => Option.none
  | f + 1, JMode.arrSep acc, cs =>
    let cs := cs.dropWhile jsonWsChar
    match cs with
    | [] => Option.none
    | c :: rest =>
      if c = ']' then Option.some (PyVal.list acc.reverse, rest)
      else if c = ',' then
        match pj f JMode.value rest with
        | Option.some (v, rest2) => pj f (JMode.arrSep (v :: acc)) rest2
        | Option.none => Option.none
      else Option.none
  | f + 1, JMode.obj0, cs =>
    let cs := cs.dropWhile jsonWsChar
    match cs with
    | [] => Option.none
    | c :: rest =>
      if c = rbraceC then Option.some (PyVal.dict [], rest)
      else if c = quoteC then
        match pstrChars rest with
        | Option.some (k, rest2) =>
          match rest2.dropWhile jsonWsChar with
          | ':' :: rest3 =>
            match pj f JMode.value rest3 with
            | Option.some (v, rest4) => pj f (JMode.objSep [(String.mk k, v)]) rest4
            | Option.none => Option.none
          | _ => Option.none
        | Option.none => Option.none
      else Option.none
  | f + 1, JMode.objSep acc, cs =>
    let cs := cs.dropWhile jsonWsChar
    match cs with
    | [] => Option.none
    | c :: rest =>
      if c = rbraceC then Option.some (PyVal.dict (buildDict acc.reverse), rest)
      else if c = ',' then
        match rest.dropWhile jsonWsChar with
        | q :: rest2 =>
          if q = quoteC then
            match pstrChars rest2 with
            | Option.some (k, rest3) =>
              match rest3.dropWhile jsonWsChar with
              | ':' :: rest4 =>
                match pj f JMode.value rest4 with
                | Option.some (v, rest5) => pj f (JMode.objSep ((String.mk k, v) :: acc)) rest5
                | Option.none => Option.none
              | _ => Option.none
            | Option.none => Option.none
          else Option.none
        | [] => Option.none
      else Option.none

/-- Parse a whole JSON document from a character list: one value, then only
whitespace to the end. -/
def jsonLoads (cs : List Char) : Option PyVal :=
  match pj (2 * cs.length + 8) JMode.value cs with
  | Option.some (v, rest) =>
    if (rest.dropWhile jsonWsChar).isEmpty then Option.some v else Option.none
  | Option.none => Option.none

/-- `json.loads` on a candidate list of characters (edge whitespace
pre-stripped; see the module note above). -/
def loadsL (cs : List Char) : Option PyVal := jsonLoads (pystrip cs)

/-- `json.loads` on a Python string. -/
def pyJsonLoads (s : String) : Option PyVal := loadsL s.data

/-! ### `_safe_json_parse` (llm.py lines 30 to 67) -/

/-- The fence marker, three backticks. -/
def ticks3 : List Char := [btickC, btickC, btickC]

/-- The fence-stripping transformation the code applies when the stripped
text starts with three backticks: strip all edge backticks, remove the
first occurrence of the substring `json` anywhere, strip whitespace. -/
def codeFenceClean (ts : List Char) : List Char :=
  pystrip (replFirstJson (stripTicks ts))

/-- The `cleaned` variable of `_safe_json_parse` as a function of the
stripped text. -/
def codeCleaned (ts : List Char) : List Char :=
  if List.isPrefixOf ticks3 ts then codeFenceClean ts else ts

/-- The bracket-span candidate of `_safe_json_parse`: the slice from the
first opening bracket to the last closing bracket, provided both exist in
that order. -/
def spanCandidate (openC closeC : Char) (cs : List Char) : List (List Char) :=
  match firstIdxOf openC cs, lastIdxOf closeC cs with
  | Option.some i, Option.some j => if i < j then [pySlice cs i (j + 1)] else []
  | _, _ => []

/-- First successful parse among a candidate list (the final loop of
`_safe_json_parse`); malformed candidates are skipped, never raised. -/
def tryCands : List (List Char) → Option PyVal
  | [] => Option.none
  | c :: rest =>
    match loadsL c with
    | Option.some v => Option.some v
    | Option.none => tryCands rest

/-- Parsing one bracket-span candidate. -/
def spanParse (openC closeC : Char) (cs : List Char) : Option PyVal :=
  tryCands (spanCandidate openC closeC cs)

/-- The span-scanning tail of `_safe_json_parse`: object span first, then
array span, else the `ValueError` text. -/
def spanFallback (cleaned : List Char) : Except String PyVal :=
  match tryCands (spanCandidate lbraceC rbraceC cleaned ++
      spanCandidate '[' ']' cleaned) with
  | Option.some v => Except.ok v
  | Option.none => Except.error "No JSON payload found in LLM response"

/-- `_safe_json_parse` from llm.py: parse the raw text; on failure strip it,
undo a leading code fence (stripping all edge backticks and removing the
first occurrence of the substring `json`), retry, then try the first-brace
to last-brace span and the first-bracket to last-bracket span. -/
def safe_json_parse (text : String) : Except String PyVal :=
  match pyJsonLoads text with
  | Option.some v => Except.ok v
  | Option.none =>
    match loadsL (codeCleaned (pystrip text.data)) with
    | Option.some v => Except.ok v
    | Option.none => spanFallback (codeCleaned (pystrip text.data))

/-- Transcribed from the claim (not from the code): step (2) strips the
fence and a leading language tag only: remove a leading and a trailing
triple backtick, then a leading alphabetic language tag, then whitespace. -/
def claimFenceClean (ts : List Char) : List Char :=
  let b1 := if List.isPrefixOf ticks3 ts then ts.drop 3 else ts
  let b2 := if List.isPrefixOf ticks3 b1.reverse then (b1.reverse.drop 3).reverse else b1
  pystrip (b2.dropWhile (fun c => c.isAlpha))

/-- The cleaned text of the claim's algorithm. -/
def claimCleaned (ts : List Char) : List Char :=
  if List.isPrefixOf ticks3 ts then claimFenceClean ts else ts

/-- Transcribed from the claim (not from the code): the ordered four-step
algorithm, first success winning: (1) parse the trimmed text; (2) if
fenced, strip the fence and a leading language tag and retry; (3) first
brace to last brace span; (4) first bracket to last bracket span; only
exhaustion produces the error. -/
def claimParse (text : String) : Except String PyVal :=
  match loadsL (pystrip text.data) with
  | Option.some v => Except.ok v
  | Option.none =>
    match (if List.isPrefixOf ticks3 (pystrip text.data) then
        loadsL (claimFenceClean (pystrip text.data)) else Option.none) with
    | Option.some v => Except.ok v
    | Option.none =>
      match spanParse lbraceC rbraceC (claimCleaned (pystrip text.data)) with
      | Option.some v => Except.ok v
      | Option.none =>
        match spanParse '[' ']' (claimCleaned (pystrip text.data)) with
        | Option.some v => Except.ok v
        | Option.none => Except.error "No JSON payload found in LLM response"

/-- The claim amended no further than its counterexample forces: identical
to `claimParse` except that step (2) applies the code's fence
transformation (strip all edge backticks and remove the first occurrence
of the substring `json` anywhere, not just a leading language tag). -/
def amendedParse (text : String) : Except String PyVal :=
  match loadsL (pystrip text.data) with
  | Option.some v => Except.ok v
  | Option.none =>
    match (if List.isPrefixOf ticks3 (pystrip text.data) then
        loadsL (codeFenceClean (pystrip text.data)) else Option.none) with
    | Option.some v => Except.ok v
    | Option.none =>
      match spanParse lbraceC rbraceC (codeCleaned (pystrip text.data)) with
      | Option.some v => Except.ok v
      | Option.none =>
        match spanParse '[' ']' (codeCleaned (pystrip text.data)) with
        | Option.some v => Except.ok v
        | Option.none => Except.error "No JSON payload found in LLM response"

/-! ### Equivalence of `_safe_json_parse` with the amended four-step algorithm -/

theorem dropWhile_rdropWhile_dropWhile (p : Char → Bool) (l : List Char) :
    List.dropWhile p (List.rdropWhile p (List.dropWhile p l)) =
      List.rdropWhile p (List.dropWhile p l) := by
  rw [List.dropWhile_eq_self_iff]
  intro hl
  have hpre : List.rdropWhile p (List.dropWhile p l) <+: List.dropWhile p l :=
    List.rdropWhile_prefix p _
  have hl2 : 0 < (List.dropWhile p l).length := lt_of_lt_of_le hl hpre.length_le
  have hx : (List.rdropWhile p (List.dropWhile p l)).get ⟨0, hl⟩ =
      (List.dropWhile p l).get ⟨0, hl2⟩ := by
    simpa using hpre.getElem hl
  rw [hx]
  exact List.dropWhile_get_zero_not p _ hl2

/-- Python `strip()` is idempotent. -/
theorem pystrip_idem (l : List Char) : pystrip (pystrip l) = pystrip l := by
  unfold pystrip
  rw [dropWhile_rdropWhile_dropWhile]
  rw [List.rdropWhile_idempotent]

theorem tryCands_append (xs ys : List (List Char)) :
    tryCands (xs ++ ys) =
      match tryCands xs with
      | Option.some v => Option.some v
      | Option.none => tryCands ys := by
  induction xs with
  | nil => simp [tryCands]
  | cons c rest ih =>
    simp only [List.cons_append, tryCands]
    cases loadsL c with
    | some v => rfl
    | none => exact ih

theorem spanFallback_eq (cleaned : List Char) :
    spanFallback cleaned =
      match spanParse lbraceC rbraceC cleaned with
      | Option.some v => Except.ok v
      | Option.none =>
        match spanParse '[' ']' cleaned with
        | Option.some v => Except.ok v
        | Option.none => Except.error "No JSON payload found in LLM response" := by
  unfold spanFallback spanParse
  rw [tryCands_append]
  cases tryCands (spanCandidate lbraceC rbraceC cleaned) with
  | some v => rfl
  | none => rfl

/-- The code's parser equals the four-step algorithm with the amended
step (2), on every input. -/
theorem safe_parse_eq_amended (s : String) : safe_json_parse s = amendedParse s := by
  unfold safe_json_parse amendedParse pyJsonLoads
  have h1 : loadsL (pystrip s.data) = loadsL s.data := by
    unfold loadsL; rw [pystrip_idem]
  rw [h1]
  cases hv : loadsL s.data with
  | some v => rfl
  | none =>
    by_cases hf : List.isPrefixOf ticks3 (pystrip s.data)
    · simp only [codeCleaned, hf, if_true, spanFallback_eq]
    · simp only [codeCleaned, hf, Bool.false_eq_true, if_false]
      rw [h1, hv]
      simp only [spanFallback_eq]

/-- C6 counterexample: on the fenced input consisting of the array
`["json"]`, the code removes the first occurrence of the substring `json`
from inside the string literal and returns `[""]`, while the claim's
step (2) (strip the fence and a leading language tag) yields `["json"]`;
so the parser does not apply the claim's algorithm. -/
theorem c6_counterexample :
    safe_json_parse "```\n[\"json\"]\n```" = Except.ok (PyVal.list [PyVal.str ""]) ∧
    claimParse "```\n[\"json\"]\n```" = Except.ok (PyVal.list [PyVal.str "json"]) ∧
    safe_json_parse "```\n[\"json\"]\n```" ≠ claimParse "```\n[\"json\"]\n```" := by
  refine ⟨rfl, rfl, ?_⟩
  intro h
  rw [show safe_json_parse "```\n[\"json\"]\n```" = Except.ok (PyVal.list [PyVal.str ""]) from rfl,
    show claimParse "```\n[\"json\"]\n```" = Except.ok (PyVal.list [PyVal.str "json"]) from rfl] at h
  injection h with h1
  injection h1 with h2
  injection h2 with h3 h4
  injection h3 with h5
  exact absurd h5 (by decide)

/-- C6 (amended): the response parser applies the ordered four-step
algorithm with first success winning, where step (2) is amended to the
code's fence handling: strip all edge backticks and remove the first
occurrence of the substring `json` anywhere (not just a leading language
tag); malformed intermediate candidates never raise, and on the input
`"Here is your plan:\n(fenced json block)"` it returns the object
mapping `a` to `1`. -/
theorem c6_parser_ordered_algorithm :
    (∀ s : String, safe_json_parse s = amendedParse s) ∧
    safe_json_parse "Here is your plan:\n```json\n\x7b\"a\":1\x7d\n```" =
      Except.ok (PyVal.dict [("a", PyVal.num 1)]) :=
  ⟨safe_parse_eq_amended, rfl⟩

/-! ### schema.py: the pydantic models and `validate_travel_plan`

The pydantic layer is embedded as a parse into plain structures followed by
a dump back to `PyVal` (`model_validate` + `model_dump`, with
`extra: ignore`).  Model scope: numeric fields require embedded numbers
(pydantic's lax string-to-number coercion is not modelled; no claim here
depends on it), and error messages are descriptive stand-ins for pydantic's
texts (no claim inspects their wording). -/

structure EstimatedCostS where
  min : Q
  max : Q
  currency : String
  deriving Repr, DecidableEq

structure TransportOptionS where
  mode : String
  estimated_travel_time : String
  distance_km : Q
  available_vehicles : List String
  estimated_cost : EstimatedCostS
  route_summary : String
  deriving Repr, DecidableEq

structure RouteS where
  leg_name : String
  transport_options : List TransportOptionS
  deriving Repr, DecidableEq

structure TravelPlanS where
  source : String
  destinations : List String
  budget : Q
  routes : List RouteS
  best_route_recommendation : String
  detailed_travel_plan : List (String × String)
  deriving Repr, DecidableEq

/-- Read a required string field. -/
def vGetStr (kvs : List (String × PyVal)) (k : String) : Except String String :=
  match pyGet kvs k with
  | Option.some (PyVal.str s) => Except.ok s
  | Option.some _ => Except.error (k ++ ": not a string")
  | Option.none => Except.error (k ++ ": field required")

/-- Read a required numeric field. -/
def vGetNum (kvs : List (String × PyVal)) (k : String) : Except String Q :=
  match pyGet kvs k with
  | Option.some (PyVal.num q) => Except.ok q
  | Option.some _ => Except.error (k ++ ": not a number")
  | Option.none => Except.error (k ++ ": field required")

/-- Read a list of strings. -/
def vStrList (k : String) : List PyVal → Except String (List String)
  | [] => Except.ok []
  | PyVal.str s :: rest => (vStrList k rest).map (fun ss => s :: ss)
  | _ :: _ => Except.error (k ++ ": element is not a string")

/-- `EstimatedCost.model_validate`: min and max non-negative numbers,
currency defaulting to INR, then the model validator `min <= max`. -/
def parseCost (v : PyVal) : Except String EstimatedCostS :=
  match v with
  | PyVal.dict kvs => do
    let mn ← vGetNum kvs "min"
    if Q.ltB mn 0 then Except.error "estimated_cost.min: must be >= 0" else
    let mx ← vGetNum kvs "max"
    if Q.ltB mx 0 then Except.error "estimated_cost.max: must be >= 0" else
    let cur ← (match pyGet kvs "currency" with
      | Option.some (PyVal.str s) => Except.ok s
      | Option.some _ => Except.error "currency: not a string"
      | Option.none => Except.ok "INR")
    if Q.ltB mx mn then Except.error "estimated_cost.min must be <= estimated_cost.max"
    else Except.ok ⟨mn, mx, cur⟩
  | _ => Except.error "estimated_cost: not an object"

/-- `TransportOption.model_validate`. -/
def parseOption (v : PyVal) : Except String TransportOptionS :=
  match v with
  | PyVal.dict kvs => do
    let mode ← vGetStr kvs "mode"
    let tt ← vGetStr kvs "estimated_travel_time"
    let dk ← vGetNum kvs "distance_km"
    if !Q.ltB 0 dk then Except.error "distance_km: must be > 0" else
    let veh ← (match pyGet kvs "available_vehicles" with
      | Option.some (PyVal.list xs) => vStrList "available_vehicles" xs
      | Option.some _ => Except.error "available_vehicles: not a list"
      | Option.none => Except.error "available_vehicles: field required")
    if veh.isEmpty then Except.error "available_vehicles must not be empty" else
    let ec ← (match pyGet kvs "estimated_cost" with
      | Option.some w => parseCost w
      | Option.none => Except.error "estimated_cost: field required")
    let rs ← vGetStr kvs "route_summary"
    Except.ok ⟨mode, tt, dk, veh, ec, rs⟩
  | _ => Except.error "transport option: not an object"

/-- Parse each element of a list of transport options. -/
def parseOptions : List PyVal → Except String (List TransportOptionS)
  | [] => Except.ok []
  | v :: rest => do
    let o ← parseOption v
    let os ← parseOptions rest
    Except.ok (o :: os)

/-- `Route.model_validate`. -/
def parseRoute (v : PyVal) : Except String RouteS :=
  match v with
  | PyVal.dict kvs => do
    let leg ← vGetStr kvs "leg_name"
    let os ← (match pyGet kvs "transport_options" with
      | Option.some (PyVal.list xs) => parseOptions xs
      | Option.some _ => Except.error "transport_options: not a list"
      | Option.none => Except.error "transport_options: field required")
    if os.isEmpty then Except.error "transport_options must not be empty"
    else Except.ok ⟨leg, os⟩
  | _ => Except.error "route: not an object"

/-- Parse each element of a list of routes. -/
def parseRoutes : List PyVal → Except String (List RouteS)
  | [] => Except.ok []
  | v :: rest => do
    let r ← parseRoute v
    let rs ← parseRoutes rest
    Except.ok (r :: rs)

/-- Parse the `detailed_travel_plan` mapping (values must be strings). -/
def parseDetail : List (String × PyVal) → Except String (List (String × String))
  | [] => Except.ok []
  | (k, PyVal.str s) :: rest => (parseDetail rest).map (fun ds => (k, s) :: ds)
  | (k, _) :: _ => Except.error (k ++ ": day plan is not a string")

/-- `TravelPlan.model_validate` with its field validators (`extra` keys are
ignored, as configured on the model). -/
def parsePlan (v : PyVal) : Except String TravelPlanS :=
  match v with
  | PyVal.dict kvs => do
    let src ← vGetStr kvs "source"
    let dests ← (match pyGet kvs "destinations" with
      | Option.some (PyVal.list xs) => vStrList "destinations" xs
      | Option.some _ => Except.error "destinations: not a list"
      | Option.none => Except.error "destinations: field required")
    let bud ← vGetNum kvs "budget"
    if !Q.ltB 0 bud then Except.error "budget: must be > 0" else
    let rts ← (match pyGet kvs "routes" with
      | Option.some (PyVal.list xs) => parseRoutes xs
      | Option.some _ => Except.error "routes: not a list"
      | Option.none => Except.error "routes: field required")
    if rts.isEmpty then Except.error "routes must not be empty" else
    let best ← vGetStr kvs "best_route_recommendation"
    let detail ← (match pyGet kvs "detailed_travel_plan" with
      | Option.some (PyVal.dict ds) => parseDetail ds
      | Option.some _ => Except.error "detailed_travel_plan: not an object"
      | Option.none => Except.error "detailed_travel_plan: field required")
    if detail.isEmpty then Except.error "detailed_travel_plan must not be empty"
    else Except.ok ⟨src, dests, bud, rts, best, detail⟩
  | _ => Except.error "plan: not an object"

/-- `model_dump` of an `EstimatedCost`. -/
def dumpCost (c : EstimatedCostS) : PyVal :=
  PyVal.dict [("min", PyVal.num c.min), ("max", PyVal.num c.max),
    ("currency", PyVal.str c.currency)]

/-- `model_dump` of a `TransportOption`. -/
def dumpOption (o : TransportOptionS) : PyVal :=
  PyVal.dict [("mode", PyVal.str o.mode),
    ("estimated_travel_time", PyVal.str o.estimated_travel_time),
    ("distance_km", PyVal.num o.distance_km),
    ("available_vehicles", PyVal.list (o.available_vehicles.map PyVal.str)),
    ("estimated_cost", dumpCost o.estimated_cost),
    ("route_summary", PyVal.str o.route_summary)]

/-- `model_dump` of a `Route`. -/
def dumpRoute (r : RouteS) : PyVal :=
  PyVal.dict [("leg_name", PyVal.str r.leg_name),
    ("transport_options", PyVal.list (r.transport_options.map dumpOption))]

/-- `model_dump` of a `TravelPlan` (exactly the six declared fields, in
declaration order). -/
def dumpPlan (p : TravelPlanS) : PyVal :=
  PyVal.dict [("source", PyVal.str p.source),
    ("destinations", PyVal.list (p.destinations.map PyVal.str)),
    ("budget", PyVal.num p.budget),
    ("routes", PyVal.list (p.routes.map dumpRoute)),
    ("best_route_recommendation", PyVal.str p.best_route_recommendation),
    ("detailed_travel_plan",
      PyVal.dict (p.detailed_travel_plan.map (fun kv => (kv.1, PyVal.str kv.2))))]

/-! ### schema.py: normalization (`validate_travel_plan`, lines 69 to 153) -/

/-- Python `str.title()`: upper-case each letter that follows a non-letter,
lower-case the rest (ASCII behavior; the pipeline only titles mode names). -/
def pyTitle (s : String) : String :=
  String.mk ((s.data.foldl
    (fun st c =>
      if c.isAlpha then
        ((if st.2 then c.toLower else c.toUpper) :: st.1, true)
      else (c :: st.1, false))
    (([] : List Char), false)).1.reverse)

/-- Python `str(value)` as used inside the normalizer's f-strings.  Exact
for strings, booleans, None and integer numbers; container and fractional
renderings are simplified placeholders, never exercised by a theorem. -/
def pyToStr : PyVal → String
  | PyVal.str s => s
  | PyVal.num q => q.render
  | PyVal.bool b => if b then "True" else "False"
  | PyVal.none => "None"
  | PyVal.list _ => "<list>"
  | PyVal.dict _ => "<dict>"

/-- Python `a or b` truthiness chain with a missing-key `get` on the left:
a missing key reads as `None`, which is falsy. -/
def pyOr (ov : Option PyVal) (dflt : PyVal) : PyVal :=
  match ov with
  | Option.some v => if pyTruthy v then v else dflt
  | Option.none => dflt

/-- The expansion of a bare string transport option (schema.py lines
116 to 123): mode is the string, time `N/A`, distance 1, the string as the
sole vehicle, zero cost. -/
def expandStr (s : String) : PyVal :=
  PyVal.dict [("mode", PyVal.str s),
    ("estimated_travel_time", PyVal.str "N/A"),
    ("distance_km", PyVal.num 1),
    ("available_vehicles", PyVal.list [PyVal.str s]),
    ("estimated_cost", PyVal.dict [("min", PyVal.num 0), ("max", PyVal.num 0),
      ("currency", PyVal.str "INR")]),
    ("route_summary", PyVal.str "")]

def isStrVal : PyVal → Bool
  | PyVal.str _ => true
  | _ => false

def isDictVal : PyVal → Bool
  | PyVal.dict _ => true
  | _ => false

/-- `_normalize_option` (schema.py lines 76 to 106).  The only statement in
it that can raise is `mode.title()` on a non-string mode (an uncaught
`AttributeError`), reported as an error here. -/
def normalizeOption (o : List (String × PyVal)) : Except String PyVal := do
  let mode := pyOr (pyGet o "mode") (pyOr (pyGet o "type") (PyVal.str "Route"))
  let estTime : PyVal :=
    if pyHasKey o "estimated_travel_time" then
      match pyGet o "estimated_travel_time" with
      | Option.some v => v
      | Option.none => PyVal.none
    else if pyHasKey o "duration_hours" then
      PyVal.str (pyToStr (match pyGet o "duration_hours" with
        | Option.some v => v
        | Option.none => PyVal.none) ++ " hr")
    else PyVal.str "N/A"
  let distance : PyVal :=
    match pyGet o "distance_km" with
    | Option.some PyVal.none => pyOr (pyGet o "estimated_distance_km")
        (pyOr (pyGet o "distance") (PyVal.num 1))
    | Option.some v => v
    | Option.none => pyOr (pyGet o "estimated_distance_km")
        (pyOr (pyGet o "distance") (PyVal.num 1))
  let vehicles ← (match pyGet o "available_vehicles" with
    | Option.some PyVal.none | Option.none =>
      (match mode with
       | PyVal.str ms => Except.ok (PyVal.list [PyVal.str (pyTitle ms)])
       | _ => Except.error "AttributeError: title on non-string mode")
    | Option.some v => Except.ok v)
  let estCost : PyVal :=
    match pyGet o "estimated_cost" with
    | Option.none => PyVal.dict [("min", PyVal.num 0), ("max", PyVal.num 0),
        ("currency", PyVal.str "INR")]
    | Option.some (PyVal.num q) => PyVal.dict [("min", PyVal.num q),
        ("max", PyVal.num q), ("currency", PyVal.str "INR")]
    | Option.some (PyVal.bool b) =>
      PyVal.dict [("min", PyVal.num (if b then 1 else 0)),
        ("max", PyVal.num (if b then 1 else 0)), ("currency", PyVal.str "INR")]
    | Option.some v => v
  let summary : PyVal :=
    match pyGet o "route_summary" with
    | Option.some v => v
    | Option.none => PyVal.str ""
  Except.ok (PyVal.dict [("mode", mode),
    ("estimated_travel_time", estTime),
    ("distance_km", distance),
    ("available_vehicles", vehicles),
    ("estimated_cost", estCost),
    ("route_summary", summary)])

/-- Apply `_normalize_option` to every element of an all-dict
`transport_options` list. -/
def normalizeOptList : List PyVal → Except String (List PyVal)
  | [] => Except.ok []
  | PyVal.dict o :: rest => do
    let v ← normalizeOption o
    let vs ← normalizeOptList rest
    Except.ok (v :: vs)
  | _ :: _ => Except.error "unreachable: non-dict in all-dict option list"

/-- Normalization of one entry of the `routes` list (schema.py lines
110 to 144).  Non-dict route entries always raise in the source (a
`TypeError` from `in` or an `AttributeError` from `.get`), whichever branch
they reach; they are reported as errors here. -/
def normRoute (idx : Nat) (route : PyVal) : Except String PyVal :=
  match route with
  | PyVal.dict kvs =>
    if pyHasKey kvs "transport_options" && pyHasKey kvs "leg_name" then
      match pyGet kvs "transport_options" with
      | Option.some (PyVal.list opts) =>
        if !opts.isEmpty then
          if opts.all isStrVal then
            Except.ok (PyVal.dict (pySetKey kvs "transport_options"
              (PyVal.list (opts.map (fun o =>
                match o with
                | PyVal.str s => expandStr s
                | _ => expandStr "")))))
          else if opts.all isDictVal then do
            let opts2 ← normalizeOptList opts
            Except.ok (PyVal.dict (pySetKey kvs "transport_options" (PyVal.list opts2)))
          else Except.ok (PyVal.dict kvs)
        else Except.ok (PyVal.dict kvs)
      | _ => Except.ok (PyVal.dict kvs)
    else do
      let topt ← normalizeOption kvs
      let leg : PyVal :=
        match pyGet kvs "leg_name" with
        | Option.some v =>
          if pyTruthy v then v
          else
            match pyGet kvs "from", pyGet kvs "to" with
            | Option.some f, Option.some t =>
              if pyTruthy f && pyTruthy t then
                PyVal.str (pyToStr f ++ " -> " ++ pyToStr t)
              else PyVal.str ("Leg " ++ toString (idx + 1))
            | _, _ => PyVal.str ("Leg " ++ toString (idx + 1))
        | Option.none =>
          match pyGet kvs "from", pyGet kvs "to" with
          | Option.some f, Option.some t =>
            if pyTruthy f && pyTruthy t then
              PyVal.str (pyToStr f ++ " -> " ++ pyToStr t)
            else PyVal.str ("Leg " ++ toString (idx + 1))
          | _, _ => PyVal.str ("Leg " ++ toString (idx + 1))
      Except.ok (PyVal.dict [("leg_name", leg), ("transport_options", PyVal.list [topt])])
  | _ => Except.error "TypeError: route entry is not a dict"

/-- Normalization of the whole `routes` list, with the 1-based index used
for the `Leg N` fallback. -/
def normRoutes : Nat → List PyVal → Except String (List PyVal)
  | _, [] => Except.ok []
  | idx, r :: rest => do
    let nr ← normRoute idx r
    let nrs ← normRoutes (idx + 1) rest
    Except.ok (nr :: nrs)

/-- The normalization phase of `validate_travel_plan`: rewrite the routes
list when it is a list, then wrap a single truthy `destination` into
`destinations` when the latter is missing. -/
def normalizeData (kvs : List (String × PyVal)) : Except String (List (String × PyVal)) := do
  let kvs1 ← (match pyGet kvs "routes" with
    | Option.some (PyVal.list rs) => do
      let nrs ← normRoutes 0 rs
      Except.ok (pySetKey kvs "routes" (PyVal.list nrs))
    | _ => Except.ok kvs)
  if pyHasKey kvs1 "destinations" then Except.ok kvs1
  else
    match pyGet kvs1 "destination" with
    | Option.some d =>
      if pyTruthy d then Except.ok (pySetKey kvs1 "destinations" (PyVal.list [d]))
      else Except.ok kvs1
    | Option.none => Except.ok kvs1

/-- The three outcomes of running `validate_travel_plan` in the pipeline:
a validated dump, a caught `ValidationError`, or an uncaught exception
(`TypeError`/`AttributeError`) escaping the `except` clause. -/
inductive VRes where
  | ok (p : PyVal)
  | caught (msg : String)
  | crash (msg : String)
  deriving Repr

/-- `validate_travel_plan` (schema.py lines 69 to 153): normalize, then
`TravelPlan.model_validate` + `model_dump`. -/
def validate_travel_plan (data : PyVal) : VRes :=
  match data with
  | PyVal.dict kvs =>
    (match normalizeData kvs with
     | Except.error m => VRes.crash m
     | Except.ok kvs2 =>
       match parsePlan (PyVal.dict kvs2) with
       | Except.error m => VRes.caught m
       | Except.ok p => VRes.ok (dumpPlan p))
  | _ => VRes.crash "AttributeError: get on non-dict data"

/-! ### providers.py: `GeoapifyProvider`

The HTTP layer is abstracted as an environment: each call either raises a
transport-level exception (e.g. a `requests` connection error or timeout,
which `providers.py` does not catch) or yields a status code and decoded
payload; all `ProviderError` messages are built here, as in the source. -/

structure GeoHit where
  lat : Q
  lon : Q
  formatted : String

/-- Outcome of the geocoding HTTP request. -/
inductive HttpGeo where
  | exc (msg : String)
  | resp (status : Int) (results : List GeoHit)

/-- Outcome of the routing HTTP request: decoded `(distance, time)` route
properties per feature (each may be absent, as `properties.get` allows). -/
inductive HttpRoute where
  | exc (msg : String)
  | resp (status : Int) (features : List (Option Q × Option Q))

structure ProviderEnv where
  apiKey : Bool
  geocodeHttp : String → HttpGeo
  routeHttp : String → String → String → HttpRoute

/-- Provider failures: a `ProviderError`, or any other exception. -/
inductive PFail where
  | perr (msg : String)
  | exc (msg : String)

/-- `GeoapifyProvider._geocode`. -/
def geocode (env : ProviderEnv) (place : String) : Except PFail GeoHit :=
  match env.geocodeHttp place with
  | HttpGeo.exc m => Except.error (PFail.exc m)
  | HttpGeo.resp status results =>
    if status ≠ 200 then
      Except.error (PFail.perr ("Geoapify geocoding failed (" ++ toString status ++ ")"))
    else
      match results with
      | [] => Except.error (PFail.perr ("Location not found: " ++ place))
      | r :: _ => Except.ok r

/-- `GeoapifyProvider._route`. -/
def routeCall (env : ProviderEnv) (sk dk mode : String) :
    Except PFail (Option Q × Option Q) :=
  match env.routeHttp sk dk mode with
  | HttpRoute.exc m => Except.error (PFail.exc m)
  | HttpRoute.resp status features =>
    if status ≠ 200 then
      Except.error (PFail.perr ("Geoapify routing failed (" ++ toString status ++ ")"))
    else
      match features with
      | [] => Except.error (PFail.perr "No route returned")
      | f :: _ => Except.ok f

/-- `_format_duration` (providers.py lines 10 to 18). -/
def format_duration (seconds : Q) : String :=
  let minutes : Int := pyRound (Q.div seconds 60)
  let hours : Int := Int.fdiv minutes 60
  let rem : Int := minutes - hours * 60
  if hours = 0 then toString rem ++ " min"
  else if rem = 0 then toString hours ++ " hr"
  else toString hours ++ " hr " ++ toString rem ++ " min"

/-- `_estimate_cost` (providers.py lines 21 to 30), as the pair of rounded
integer bounds. -/
def estimate_cost (distance_km : Q) (mode : String) : Int × Int :=
  if mode = "transit" then
    (pyRound (Q.mul distance_km 2), pyRound (Q.mul distance_km 6))
  else
    (pyRound (Q.mul distance_km 10), pyRound (Q.mul distance_km 16))

/-- The mode table of `get_transport_options`. -/
def modesList : List (String × String × List String) :=
  [("drive", "Driving", ["Car", "Taxi"]), ("transit", "Transit", ["Bus", "Train"])]

/-- The per-mode loop of `get_transport_options`: a `ProviderError` from
`_route` skips the mode, any other exception propagates, and modes with
non-positive distance or time are skipped. -/
def collectModes (env : ProviderEnv) (skey dkey : String) :
    List (String × String × List String) → Except PFail (List PyVal)
  | [] => Except.ok []
  | (mode, label, vehicles) :: rest =>
    match routeCall env skey dkey mode with
    | Except.error (PFail.perr _) => collectModes env skey dkey rest
    | Except.error (PFail.exc m) => Except.error (PFail.exc m)
    | Except.ok (dOpt, tOpt) =>
      if Q.leB (dOpt.getD 0) 0 || Q.leB (tOpt.getD 0) 0 then collectModes env skey dkey rest
      else
        let dk := pyRound1 (Q.div (dOpt.getD 0) 1000)
        let cost := estimate_cost dk mode
        let summary := "Distance/time from Geoapify routing. Cost estimated at INR " ++
          toString cost.1 ++ "-" ++ toString cost.2 ++ " based on distance."
        (collectModes env skey dkey rest).map (fun os =>
          PyVal.dict [("mode", PyVal.str label),
            ("estimated_travel_time", PyVal.str (format_duration (tOpt.getD 0))),
            ("distance_km", PyVal.num dk),
            ("available_vehicles", PyVal.list (vehicles.map PyVal.str)),
            ("estimated_cost", PyVal.dict [("min", PyVal.num (Q.ofInt cost.1)),
              ("max", PyVal.num (Q.ofInt cost.2)), ("currency", PyVal.str "INR")]),
            ("route_summary", PyVal.str summary)] :: os)

/-- `GeoapifyProvider.get_transport_options` (providers.py lines 84 to 125). -/
def get_transport_options (env : ProviderEnv) (source destination : String) :
    Except PFail (List PyVal) := do
  let src ← geocode env source
  let dst ← geocode env destination
  let skey := src.lat.render ++ "," ++ src.lon.render
  let dkey := dst.lat.render ++ "," ++ dst.lon.render
  let options ← collectModes env skey dkey modesList
  if options.isEmpty then Except.error (PFail.perr "Insufficient route data from provider")
  else Except.ok options

/-! ### llm.py: `generate_travel_plan_json` -/

/-- `_friendly_llm_error` (llm.py lines 98 to 111). -/
def friendly_llm_error (msg : String) : String :=
  let upper := pyUpper msg.data
  if containsSub ("RESOURCE_EXHAUSTED".data) upper || containsSub ("429".data) upper then
    "The AI service rate limit was exceeded. Please try again later."
  else if containsSub ("API KEY".data) upper || containsSub ("INVALID".data) upper ||
      containsSub ("401".data) upper || containsSub ("403".data) upper then
    "The API key appears to be invalid or expired. Please update the API key."
  else if containsSub ("DEADLINE".data) upper || containsSub ("TIMEOUT".data) upper ||
      containsSub ("504".data) upper then
    "The AI service timed out. Please try again in a moment."
  else "The AI service is currently unavailable. Please try again later."

/-- The provider loop of `generate_travel_plan_json` (llm.py lines
234 to 242): one leg per destination, chained sources, stopping at the
first failing leg. -/
def providerLegs (env : ProviderEnv) (legSource : String) :
    List String → Except PFail (List PyVal)
  | [] => Except.ok []
  | dest :: rest => do
    let options ← get_transport_options env legSource dest
    let legs ← providerLegs env dest rest
    Except.ok (PyVal.dict [("leg_name", PyVal.str (legSource ++ " -> " ++ dest)),
      ("transport_options", PyVal.list options)] :: legs)

/-- Outcome of the whole `try` block around the provider (llm.py lines
232 to 246): routes obtained, a caught `ProviderError`, or an uncaught
exception. -/
inductive PPhase where
  | ok (routes : List PyVal)
  | perr (msg : String)
  | exc (msg : String)

/-- The provider phase: constructing `GeoapifyProvider` (which raises
`ProviderError` when the key is absent) and running the leg loop; only
`ProviderError` is caught. -/
def providerPhase (env : ProviderEnv) (source : String) (dests : List String) : PPhase :=
  if !env.apiKey then PPhase.perr "GEOAPIFY_API_KEY is not set"
  else
    match providerLegs env source dests with
    | Except.ok legs => PPhase.ok legs
    | Except.error (PFail.perr m) => PPhase.perr m
    | Except.error (PFail.exc m) => PPhase.exc m

/-- One model call either raises (transport failure) or yields text. -/
inductive ModelResult where
  | exc (msg : String)
  | text (t : String)

/-- Parse-then-validate on one raw response (llm.py lines 273 to 275):
a `ValueError`/`ValidationError` is caught by the loop, any other
exception propagates. -/
inductive PStep where
  | ok (p : PyVal)
  | caughtErr (msg : String)
  | crash (msg : String)

def pipelineStep (t : String) : PStep :=
  match safe_json_parse t with
  | Except.error m => PStep.caughtErr m
  | Except.ok v =>
    match validate_travel_plan v with
    | VRes.ok p => PStep.ok p
    | VRes.caught m => PStep.caughtErr m
    | VRes.crash m => PStep.crash m

/-- Result of the two-attempt model loop, with the number of model calls
performed. -/
inductive LoopOut where
  | success (p : PyVal) (calls : Nat)
  | transport (friendly : String) (calls : Nat)
  | invalid (lastErr : String) (calls : Nat)
  | crashed (msg : String) (calls : Nat)

/-- The `for attempt in range(2)` loop of `generate_travel_plan_json`
(llm.py lines 260 to 283), with the model's behavior on the k-th call
given by `model k`.  A transport failure on the first attempt waits and
retries; one on the second raises the categorized friendly error.  A
parse/validation failure on the first attempt switches to the repair
prompt and retries; one on the second leaves `travel_data` unset, and the
loop exit raises `ValueError` with the last error. -/
def runAttempts (model : Nat → ModelResult) : LoopOut :=
  match model 0 with
  | ModelResult.exc _ =>
    match model 1 with
    | ModelResult.exc m2 => LoopOut.transport (friendly_llm_error m2) 2
    | ModelResult.text t =>
      match pipelineStep t with
      | PStep.ok p => LoopOut.success p 2
      | PStep.caughtErr e => LoopOut.invalid e 2
      | PStep.crash m => LoopOut.crashed m 2
  | ModelResult.text t =>
    match pipelineStep t with
    | PStep.ok p => LoopOut.success p 1
    | PStep.crash m => LoopOut.crashed m 1
    | PStep.caughtErr _ =>
      match model 1 with
      | ModelResult.exc m2 => LoopOut.transport (friendly_llm_error m2) 2
      | ModelResult.text t2 =>
        match pipelineStep t2 with
        | PStep.ok p => LoopOut.success p 2
        | PStep.caughtErr e2 => LoopOut.invalid e2 2
        | PStep.crash m => LoopOut.crashed m 2

/-- The session memory dict. -/
abbrev Mem := List (String × PyVal)

inductive GenOutcome where
  | ok (plan : PyVal)
  | transportFail (friendly : String)
  | invalidFail (msg : String)
  | crash (msg : String)

/-- A full run: outcome, final memory, number of model calls. -/
structure GenRun where
  outcome : GenOutcome
  mem : Mem
  calls : Nat

/-- Dict assignment on a plan value (always a dict on the paths taken). -/
def pDictSet (p : PyVal) (k : String) (v : PyVal) : PyVal :=
  match p with
  | PyVal.dict kvs => PyVal.dict (pySetKey kvs k v)
  | other => other

/-- Truthiness of an optional string variable (`None` or a string). -/
def strTruthy : Option String → Bool
  | Option.some s => !s.isEmpty
  | Option.none => false

/-- The `last_trip` summary written to memory (llm.py lines 300 to 305). -/
def lastTripDict (source : String) (dests : List String) (budget : Q)
    (startDate : Option String) : PyVal :=
  PyVal.dict [("source", PyVal.str source),
    ("destinations", PyVal.list (dests.map PyVal.str)),
    ("budget", PyVal.num budget),
    ("start_date", match startDate with
      | Option.some s => PyVal.str s
      | Option.none => PyVal.none)]

/-- `memory.setdefault("generated_trips", []).append(travel_data)`. -/
def memAppendTrip (mem : Mem) (plan : PyVal) : Except String Mem :=
  match pyGet mem "generated_trips" with
  | Option.some (PyVal.list xs) =>
    Except.ok (pySetKey mem "generated_trips" (PyVal.list (xs ++ [plan])))
  | Option.some _ => Except.error "AttributeError: append on non-list generated_trips"
  | Option.none => Except.ok (pySetKey mem "generated_trips" (PyVal.list [plan]))

/-- The provider-data override (llm.py lines 285 to 289): a truthy
`routes_from_provider` replaces the validated plan's `routes` and
`destinations`; the `best_route_recommendation` check is a no-op `pass`. -/
def overrideRoutes (p : PyVal) (routesFromProvider : Option (List PyVal))
    (dests : List String) : PyVal :=
  match routesFromProvider with
  | Option.some routes =>
    if !routes.isEmpty then
      pDictSet (pDictSet p "routes" (PyVal.list routes))
        "destinations" (PyVal.list (dests.map PyVal.str))
    else p
  | Option.none => p

/-- The data-source annotation (llm.py lines 291 to 295). -/
def annotate (p : PyVal) (dataSource providerError : Option String) : PyVal :=
  if strTruthy dataSource then pDictSet p "data_source" (PyVal.str (dataSource.getD ""))
  else if strTruthy providerError then
    pDictSet (pDictSet p "data_source" (PyVal.str "LLM estimates"))
      "data_source_error" (PyVal.str (providerError.getD ""))
  else p

/-- The generator after the provider phase: model loop, override,
annotation, memory update (llm.py lines 258 to 309).  On every raising
path the memory is returned as it was; on success `last_trip` is
overwritten and the plan is appended to `generated_trips`. -/
def continueGen (model : Nat → ModelResult) (source : String) (dests : List String)
    (startDate : Option String) (budget : Q) (mem : Mem)
    (routesFromProvider : Option (List PyVal)) (dataSource providerError : Option String) :
    GenRun :=
  match runAttempts model with
  | LoopOut.transport f c => ⟨GenOutcome.transportFail f, mem, c⟩
  | LoopOut.invalid e c => ⟨GenOutcome.invalidFail ("LLM output invalid: " ++ e), mem, c⟩
  | LoopOut.crashed m c => ⟨GenOutcome.crash m, mem, c⟩
  | LoopOut.success p c =>
    let p2 := annotate (overrideRoutes p routesFromProvider dests) dataSource providerError
    let mem1 := pySetKey mem "last_trip" (lastTripDict source dests budget startDate)
    match memAppendTrip mem1 p2 with
    | Except.ok mem2 => ⟨GenOutcome.ok p2, mem2, c⟩
    | Except.error m => ⟨GenOutcome.crash m, mem1, c⟩

/-- `generate_travel_plan_json` (llm.py lines 219 to 309), with the
provider HTTP layer and the model's per-call behavior as parameters. -/
def generate_travel_plan_json (env : ProviderEnv) (model : Nat → ModelResult)
    (source : String) (dests : List String) (startDate : Option String)
    (budget : Q) (mem : Mem) : GenRun :=
  match providerPhase env source dests with
  | PPhase.exc m => ⟨GenOutcome.crash m, mem, 0⟩
  | PPhase.perr m =>
    continueGen model source dests startDate budget mem
      Option.none Option.none (Option.some m)
  | PPhase.ok routes =>
    continueGen model source dests startDate budget mem
      (Option.some routes) (Option.some "Geoapify routing") Option.none

/-! ### Extraction helpers and invariants used by the theorems -/

/-- Read a top-level field of a plan value (which is a dict on every
successful path). -/
def planFieldOf (p : PyVal) (k : String) : Option PyVal :=
  match p with
  | PyVal.dict kvs => pyGet kvs k
  | _ => Option.none

/-- The plan's `routes` list. -/
def planRoutesOf (p : PyVal) : Option (List PyVal) :=
  match planFieldOf p "routes" with
  | Option.some (PyVal.list rs) => Option.some rs
  | _ => Option.none

/-- The plan's `destinations` list. -/
def planDestsOf (p : PyVal) : Option (List PyVal) :=
  match planFieldOf p "destinations" with
  | Option.some (PyVal.list ds) => Option.some ds
  | _ => Option.none

/-- A route's `transport_options` list. -/
def routeOptionsOf (leg : PyVal) : Option (List PyVal) :=
  match leg with
  | PyVal.dict kvs =>
    (match pyGet kvs "transport_options" with
     | Option.some (PyVal.list os) => Option.some os
     | _ => Option.none)
  | _ => Option.none

/-- The (min, max) pair of one option's `estimated_cost`. -/
def costOf (o : PyVal) : List (Q × Q) :=
  match o with
  | PyVal.dict kv =>
    (match pyGet kv "estimated_cost" with
     | Option.some (PyVal.dict ckv) =>
       (match pyGet ckv "min", pyGet ckv "max" with
        | Option.some (PyVal.num a), Option.some (PyVal.num b) => [(a, b)]
        | _, _ => [])
     | _ => [])
  | _ => []

/-- All (min, max) cost pairs in an option list. -/
def optionCosts : List PyVal → List (Q × Q)
  | [] => []
  | o :: rest => costOf o ++ optionCosts rest

/-- All (min, max) cost pairs in a routes list. -/
def routesCosts : List PyVal → List (Q × Q)
  | [] => []
  | leg :: rest =>
    (match routeOptionsOf leg with
     | Option.some os => optionCosts os
     | Option.none => []) ++ routesCosts rest

/-- Every (min, max) pair of every `estimated_cost` in a plan value. -/
def planCosts (p : PyVal) : List (Q × Q) :=
  match planRoutesOf p with
  | Option.some rs => routesCosts rs
  | Option.none => []

/-- The `mode` of the first option of the first route (used to exhibit the
idempotence counterexample). -/
def firstOptionModeOf (p : PyVal) : Option PyVal :=
  match planRoutesOf p with
  | Option.some (leg :: _) =>
    (match routeOptionsOf leg with
     | Option.some (o :: _) => planFieldOf o "mode"
     | _ => Option.none)
  | _ => Option.none

/-- The invariants `EstimatedCost` validation enforces. -/
def CostWF (c : EstimatedCostS) : Prop :=
  Q.Le 0 c.min ∧ Q.Le 0 c.max ∧ Q.Le c.min c.max

/-- The invariants `TransportOption` validation enforces. -/
def OptionWF (o : TransportOptionS) : Prop :=
  Q.Lt 0 o.distance_km ∧ o.available_vehicles ≠ [] ∧ CostWF o.estimated_cost

/-- The invariants `TravelPlan` validation enforces. -/
def PlanWF (q : TravelPlanS) : Prop :=
  Q.Lt 0 q.budget ∧ q.routes ≠ [] ∧ q.detailed_travel_plan ≠ [] ∧
    ∀ r ∈ q.routes, r.transport_options ≠ [] ∧ ∀ o ∈ r.transport_options, OptionWF o

/-- Every option's mode is a non-empty string (the extra premise the
idempotence claim needs). -/
def ModesWF (q : TravelPlanS) : Prop :=
  ∀ r ∈ q.routes, ∀ o ∈ r.transport_options, o.mode ≠ ""

/-! ### Dict, provider, and validation-invariant lemmas -/

theorem pyGet_set_same (kvs : List (String × PyVal)) (k : String) (v : PyVal) :
    pyGet (pySetKey kvs k v) k = Option.some v := by
  induction kvs with
  | nil => simp [pySetKey, pyGet]
  | cons kv rest ih =>
    obtain ⟨k1, w⟩ := kv
    by_cases h : k1 = k
    · simp [pySetKey, pyGet, h]
    · simp [pySetKey, pyGet, h, ih]

theorem pyGet_set_other (kvs : List (String × PyVal)) (k k2 : String) (v : PyVal)
    (h : k2 ≠ k) : pyGet (pySetKey kvs k v) k2 = pyGet kvs k2 := by
  induction kvs with
  | nil => simp [pySetKey, pyGet, Ne.symm h]
  | cons kv rest ih =>
    obtain ⟨k1, w⟩ := kv
    by_cases h1 : k1 = k
    · subst h1
      simp [pySetKey, pyGet, Ne.symm h]
    · by_cases h2 : k1 = k2
      · subst h2
        simp [pySetKey, pyGet, h1, h]
      · simp [pySetKey, pyGet, h1, h2, ih]

theorem get_transport_options_ne_nil (env : ProviderEnv) (s d : String)
    (os : List PyVal) (h : get_transport_options env s d = Except.ok os) :
    os ≠ [] := by
  unfold get_transport_options at h
  simp only [bind, Except.bind] at h
  cases hg1 : geocode env s with
  | error e => simp only [hg1] at h; exact Except.noConfusion h
  | ok src =>
    simp only [hg1] at h
    cases hg2 : geocode env d with
    | error e => simp only [hg2] at h; exact Except.noConfusion h
    | ok dst =>
      simp only [hg2] at h
      cases hc : collectModes env (src.lat.render ++ "," ++ src.lon.render)
          (dst.lat.render ++ "," ++ dst.lon.render) modesList with
      | error e => simp only [hc] at h; exact Except.noConfusion h
      | ok opts =>
        simp only [hc] at h
        by_cases he : opts.isEmpty
        · simp [he] at h
        · simp [he] at h
          subst h
          simpa [List.isEmpty_iff] using he

theorem providerLegs_length (env : ProviderEnv) :
    ∀ (dests : List String) (src : String) (legs : List PyVal),
      providerLegs env src dests = Except.ok legs → legs.length = dests.length := by
  intro dests
  induction dests with
  | nil => intro src legs h; simp [providerLegs] at h; simp [← h]
  | cons d rest ih =>
    intro src legs h
    unfold providerLegs at h
    simp only [bind, Except.bind] at h
    cases ho : get_transport_options env src d with
    | error e => rw [ho] at h; simp at h
    | ok os =>
      rw [ho] at h
      cases hl : providerLegs env d rest with
      | error e => rw [hl] at h; simp at h
      | ok ls =>
        rw [hl] at h
        simp only [Except.ok.injEq] at h
        subst h
        simp [ih d ls hl]

theorem append_left_ne_empty (s t : String) (h : s.data ≠ []) : s ++ t ≠ "" := fun hc =>
  h (List.append_eq_nil.mp (congrArg String.data hc : s.data ++ t.data = [])).1

theorem data_ne_nil_append (a b : String) (h : a.data ≠ []) : (a ++ b).data ≠ [] :=
  fun hc => h (List.append_eq_nil.mp hc).1

theorem geocode_perr_ne (env : ProviderEnv) (p m : String)
    (h : geocode env p = Except.error (PFail.perr m)) : m ≠ "" := by
  unfold geocode at h
  cases hw : env.geocodeHttp p with
  | exc e => simp only [hw] at h; simp at h
  | resp status results =>
    simp only [hw] at h
    by_cases hs : status = 200
    · simp [hs] at h
      cases results with
      | nil =>
        simp at h
        rw [← h]
        exact append_left_ne_empty _ _ (by decide)
      | cons r rs => simp at h
    · simp [hs] at h
      rw [← h]
      exact append_left_ne_empty _ _ (data_ne_nil_append _ _ (by decide))

theorem collectModes_no_exc_perr (env : ProviderEnv) (sk dk : String)
    (ms : List (String × String × List String)) (m : String) :
    collectModes env sk dk ms ≠ Except.error (PFail.perr m) := by
  induction ms with
  | nil => simp [collectModes]
  | cons mo rest ih =>
    obtain ⟨mode, label, vehicles⟩ := mo
    intro h
    unfold collectModes at h
    cases hr : routeCall env sk dk mode with
    | error e =>
      cases e with
      | perr e1 => simp only [hr] at h; exact ih h
      | exc e1 => simp only [hr] at h; simp at h
    | ok pair =>
      obtain ⟨dOpt, tOpt⟩ := pair
      simp only [hr] at h
      by_cases hz : (Q.leB (dOpt.getD 0) 0 || Q.leB (tOpt.getD 0) 0) = true
      · rw [if_pos hz] at h
        exact ih h
      · rw [if_neg hz] at h
        cases hc : collectModes env sk dk rest with
        | error e =>
          simp only [hc, Except.map] at h
          injection h with h2
          exact ih (h2 ▸ hc)
        | ok os => simp only [hc, Except.map] at h; exact Except.noConfusion h

theorem gto_perr_ne (env : ProviderEnv) (s d m : String)
    (h : get_transport_options env s d = Except.error (PFail.perr m)) : m ≠ "" := by
  unfold get_transport_options at h
  simp only [bind, Except.bind] at h
  cases hg1 : geocode env s with
  | error e =>
    simp only [hg1] at h
    cases e with
    | perr e1 =>
      injection h with h2
      injection h2 with h3
      rw [← h3]
      exact geocode_perr_ne env s e1 hg1
    | exc e1 => simp at h
  | ok src =>
    simp only [hg1] at h
    cases hg2 : geocode env d with
    | error e =>
      simp only [hg2] at h
      cases e with
      | perr e1 =>
        injection h with h2
        injection h2 with h3
        rw [← h3]
        exact geocode_perr_ne env d e1 hg2
      | exc e1 => simp at h
    | ok dst =>
      simp only [hg2] at h
      cases hc : collectModes env (src.lat.render ++ "," ++ src.lon.render)
          (dst.lat.render ++ "," ++ dst.lon.render) modesList with
      | error e =>
        simp only [hc] at h
        cases e with
        | perr e1 => exact absurd hc (collectModes_no_exc_perr env _ _ _ _)
        | exc e1 => simp at h
      | ok opts =>
        simp only [hc] at h
        by_cases he : opts.isEmpty
        · simp [he] at h
          rw [← h]
          decide
        · simp [he] at h

theorem providerLegs_perr_ne (env : ProviderEnv) :
    ∀ (dests : List String) (src m : String),
      providerLegs env src dests = Except.error (PFail.perr m) → m ≠ "" := by
  intro dests
  induction dests with
  | nil => intro src m h; simp [providerLegs] at h
  | cons d rest ih =>
    intro src m h
    unfold providerLegs at h
    simp only [bind, Except.bind] at h
    cases ho : get_transport_options env src d with
    | error e =>
      simp only [ho] at h
      cases e with
      | perr e1 =>
        injection h with h2
        injection h2 with h3
        rw [← h3]
        exact gto_perr_ne env src d e1 ho
      | exc e1 => simp at h
    | ok os =>
      simp only [ho] at h
      cases hl : providerLegs env d rest with
      | error e =>
        simp only [hl] at h
        cases e with
        | perr e1 =>
          injection h with h2
          injection h2 with h3
          rw [← h3]
          exact ih d e1 hl
        | exc e1 => simp at h
      | ok ls => simp only [hl] at h; simp at h

theorem providerPhase_perr_ne (env : ProviderEnv) (source : String) (dests : List String)
    (m : String) (h : providerPhase env source dests = PPhase.perr m) : m ≠ "" := by
  unfold providerPhase at h
  by_cases hk : env.apiKey
  · simp [hk] at h
    cases hl : providerLegs env source dests with
    | error e =>
      rw [hl] at h
      cases e with
      | perr e1 =>
        simp at h
        rw [← h]
        exact providerLegs_perr_ne env dests source e1 hl
      | exc e1 => simp at h
    | ok ls => rw [hl] at h; simp at h
  · simp [hk] at h
    rw [← h]
    decide

theorem q_zero_n : (0 : Q).n = 0 := rfl

theorem q_zero_d : (0 : Q).d = 1 := rfl

theorem parseCost_wf (v : PyVal) (c : EstimatedCostS) (h : parseCost v = Except.ok c) :
    CostWF c := by
  unfold parseCost at h
  cases v with
  | dict kvs =>
    simp only [bind, Except.bind] at h
    cases hmn : vGetNum kvs "min" with
    | error e => simp only [hmn] at h; exact Except.noConfusion h
    | ok mn =>
      simp only [hmn] at h
      by_cases h1 : Q.ltB mn 0
      · simp [h1] at h
      · simp only [h1, Bool.false_eq_true, if_false] at h
        cases hmx : vGetNum kvs "max" with
        | error e => simp only [hmx] at h; exact Except.noConfusion h
        | ok mx =>
          simp only [hmx] at h
          by_cases h2 : Q.ltB mx 0
          · simp [h2] at h
          · simp only [h2, Bool.false_eq_true, if_false] at h
            cases hcur : (match pyGet kvs "currency" with
              | Option.some (PyVal.str s) => Except.ok s
              | Option.some _ => Except.error "currency: not a string"
              | Option.none => Except.ok "INR" : Except String String) with
            | error e => simp only [hcur] at h; exact Except.noConfusion h
            | ok cur =>
              simp only [hcur] at h
              by_cases h3 : Q.ltB mx mn
              · simp [h3] at h
              · simp only [h3, Bool.false_eq_true, if_false] at h
                injection h with h4
                subst h4
                simp only [Q.ltB, decide_eq_true_eq, Q.Lt, q_zero_n, q_zero_d] at h1 h2 h3
                refine ⟨?_, ?_, ?_⟩ <;> simp only [Q.Le, q_zero_n, q_zero_d] <;> omega
  | str s => exact Except.noConfusion h
  | num q => exact Except.noConfusion h
  | bool b => exact Except.noConfusion h
  | none => exact Except.noConfusion h
  | list xs => exact Except.noConfusion h

theorem parseOption_wf (v : PyVal) (o : TransportOptionS)
    (h : parseOption v = Except.ok o) : OptionWF o := by
  unfold parseOption at h
  cases v with
  | dict kvs =>
    simp only [bind, Except.bind] at h
    cases hm : vGetStr kvs "mode" with
    | error e => simp only [hm] at h; exact Except.noConfusion h
    | ok mode =>
      simp only [hm] at h
      cases ht : vGetStr kvs "estimated_travel_time" with
      | error e => simp only [ht] at h; exact Except.noConfusion h
      | ok tt =>
        simp only [ht] at h
        cases hd : vGetNum kvs "distance_km" with
        | error e => simp only [hd] at h; exact Except.noConfusion h
        | ok dk =>
          simp only [hd] at h
          by_cases h1 : Q.ltB 0 dk
          · simp only [h1, Bool.not_true, Bool.false_eq_true, if_false] at h
            cases hv : (match pyGet kvs "available_vehicles" with
              | Option.some (PyVal.list xs) => vStrList "available_vehicles" xs
              | Option.some _ => Except.error "available_vehicles: not a list"
              | Option.none => Except.error "available_vehicles: field required" :
                Except String (List String)) with
            | error e => simp only [hv] at h; exact Except.noConfusion h
            | ok veh =>
              simp only [hv] at h
              by_cases h2 : veh.isEmpty
              · simp [h2] at h
              · simp only [h2, Bool.false_eq_true, if_false] at h
                cases hc : (match pyGet kvs "estimated_cost" with
                  | Option.some w => parseCost w
                  | Option.none => Except.error "estimated_cost: field required" :
                    Except String EstimatedCostS) with
                | error e => simp only [hc] at h; exact Except.noConfusion h
                | ok ec =>
                  simp only [hc] at h
                  cases hr : vGetStr kvs "route_summary" with
                  | error e => simp only [hr] at h; exact Except.noConfusion h
                  | ok rsum =>
                    simp only [hr] at h
                    injection h with h4
                    subst h4
                    refine ⟨?_, ?_, ?_⟩
                    · simpa [Q.ltB] using h1
                    · simpa [List.isEmpty_iff] using h2
                    · cases hg : pyGet kvs "estimated_cost" with
                      | some w =>
                        rw [hg] at hc
                        exact parseCost_wf w ec hc
                      | none => rw [hg] at hc; exact Except.noConfusion hc
          · simp [h1] at h
  | str s => exact Except.noConfusion h
  | num q => exact Except.noConfusion h
  | bool b => exact Except.noConfusion h
  | none => exact Except.noConfusion h
  | list xs => exact Except.noConfusion h

theorem parseOptions_wf (xs : List PyVal) (os : List TransportOptionS)
    (h : parseOptions xs = Except.ok os) : ∀ o ∈ os, OptionWF o := by
  induction xs generalizing os with
  | nil =>
    simp only [parseOptions] at h
    injection h with h1
    subst h1
    intro o ho
    exact absurd ho (List.not_mem_nil o)
  | cons v rest ih =>
    simp only [parseOptions, bind, Except.bind] at h
    cases h1 : parseOption v with
    | error e => simp only [h1] at h; exact Except.noConfusion h
    | ok o1 =>
      simp only [h1] at h
      cases h2 : parseOptions rest with
      | error e => simp only [h2] at h; exact Except.noConfusion h
      | ok os1 =>
        simp only [h2] at h
        injection h with h3
        subst h3
        intro o ho
        rcases List.mem_cons.mp ho with h4 | h4
        · exact h4 ▸ parseOption_wf v o1 h1
        · exact ih os1 h2 o h4

theorem parseRoute_wf (v : PyVal) (r : RouteS) (h : parseRoute v = Except.ok r) :
    r.transport_options ≠ [] ∧ ∀ o ∈ r.transport_options, OptionWF o := by
  unfold parseRoute at h
  cases v with
  | dict kvs =>
    simp only [bind, Except.bind] at h
    cases hl : vGetStr kvs "leg_name" with
    | error e => simp only [hl] at h; exact Except.noConfusion h
    | ok leg =>
      simp only [hl] at h
      cases ho : (match pyGet kvs "transport_options" with
        | Option.some (PyVal.list xs) => parseOptions xs
        | Option.some _ => Except.error "transport_options: not a list"
        | Option.none => Except.error "transport_options: field required" :
          Except String (List TransportOptionS)) with
      | error e => simp only [ho] at h; exact Except.noConfusion h
      | ok os =>
        simp only [ho] at h
        by_cases h2 : os.isEmpty
        · simp [h2] at h
        · simp only [h2, Bool.false_eq_true, if_false] at h
          injection h with h3
          subst h3
          refine ⟨by simpa [List.isEmpty_iff] using h2, ?_⟩
          cases hg : pyGet kvs "transport_options" with
          | some w =>
            rw [hg] at ho
            cases w with
            | list xs => exact parseOptions_wf xs os ho
            | str s => exact Except.noConfusion ho
            | num q => exact Except.noConfusion ho
            | bool b => exact Except.noConfusion ho
            | none => exact Except.noConfusion ho
            | dict d2 => exact Except.noConfusion ho
          | none => rw [hg] at ho; exact Except.noConfusion ho
  | str s => exact Except.noConfusion h
  | num q => exact Except.noConfusion h
  | bool b => exact Except.noConfusion h
  | none => exact Except.noConfusion h
  | list xs => exact Except.noConfusion h

theorem parseRoutes_wf (xs : List PyVal) (rs : List RouteS)
    (h : parseRoutes xs = Except.ok rs) :
    ∀ r ∈ rs, r.transport_options ≠ [] ∧ ∀ o ∈ r.transport_options, OptionWF o := by
  induction xs generalizing rs with
  | nil =>
    simp only [parseRoutes] at h
    injection h with h1
    subst h1
    intro r hr
    exact absurd hr (List.not_mem_nil r)
  | cons v rest ih =>
    simp only [parseRoutes, bind, Except.bind] at h
    cases h1 : parseRoute v with
    | error e => simp only [h1] at h; exact Except.noConfusion h
    | ok r1 =>
      simp only [h1] at h
      cases h2 : parseRoutes rest with
      | error e => simp only [h2] at h; exact Except.noConfusion h
      | ok rs1 =>
        simp only [h2] at h
        injection h with h3
        subst h3
        intro r hr
        rcases List.mem_cons.mp hr with h4 | h4
        · exact h4 ▸ parseRoute_wf v r1 h1
        · exact ih rs1 h2 r h4

theorem parsePlan_wf (v : PyVal) (q : TravelPlanS) (h : parsePlan v = Except.ok q) :
    PlanWF q := by
  unfold parsePlan at h
  cases v with
  | dict kvs =>
    simp only [bind, Except.bind] at h
    cases h1 : vGetStr kvs "source" with
    | error e => simp only [h1] at h; exact Except.noConfusion h
    | ok src =>
      simp only [h1] at h
      cases h2 : (match pyGet kvs "destinations" with
        | Option.some (PyVal.list xs) => vStrList "destinations" xs
        | Option.some _ => Except.error "destinations: not a list"
        | Option.none => Except.error "destinations: field required" :
          Except String (List String)) with
      | error e => simp only [h2] at h; exact Except.noConfusion h
      | ok dests =>
        simp only [h2] at h
        cases h3 : vGetNum kvs "budget" with
        | error e => simp only [h3] at h; exact Except.noConfusion h
        | ok bud =>
          simp only [h3] at h
          by_cases h4 : Q.ltB 0 bud
          · simp only [h4, Bool.not_true, Bool.false_eq_true, if_false] at h
            cases h5 : (match pyGet kvs "routes" with
              | Option.some (PyVal.list xs) => parseRoutes xs
              | Option.some _ => Except.error "routes: not a list"
              | Option.none => Except.error "routes: field required" :
                Except String (List RouteS)) with
            | error e => simp only [h5] at h; exact Except.noConfusion h
            | ok rts =>
              simp only [h5] at h
              by_cases h6 : rts.isEmpty
              · simp [h6] at h
              · simp only [h6, Bool.false_eq_true, if_false] at h
                cases h7 : vGetStr kvs "best_route_recommendation" with
                | error e => simp only [h7] at h; exact Except.noConfusion h
                | ok best =>
                  simp only [h7] at h
                  cases h8 : (match pyGet kvs "detailed_travel_plan" with
                    | Option.some (PyVal.dict ds) => parseDetail ds
                    | Option.some _ => Except.error "detailed_travel_plan: not an object"
                    | Option.none => Except.error "detailed_travel_plan: field required" :
                      Except String (List (String × String))) with
                  | error e => simp only [h8] at h; exact Except.noConfusion h
                  | ok detail =>
                    simp only [h8] at h
                    by_cases h9 : detail.isEmpty
                    · simp [h9] at h
                    · simp only [h9, Bool.false_eq_true, if_false] at h
                      injection h with h10
                      subst h10
                      refine ⟨by simpa [Q.ltB] using h4,
                        by simpa [List.isEmpty_iff] using h6,
                        by simpa [List.isEmpty_iff] using h9, ?_⟩
                      cases hg : pyGet kvs "routes" with
                      | some w =>
                        rw [hg] at h5
                        cases w with
                        | list xs => exact parseRoutes_wf xs rts h5
                        | str s => exact Except.noConfusion h5
                        | num q2 => exact Except.noConfusion h5
                        | bool b => exact Except.noConfusion h5
                        | none => exact Except.noConfusion h5
                        | dict d2 => exact Except.noConfusion h5
                      | none => rw [hg] at h5; exact Except.noConfusion h5
          · simp [h4] at h
  | str s => exact Except.noConfusion h
  | num q2 => exact Except.noConfusion h
  | bool b => exact Except.noConfusion h
  | none => exact Except.noConfusion h
  | list xs => exact Except.noConfusion h

theorem validate_wf (v p : PyVal) (h : validate_travel_plan v = VRes.ok p) :
    ∃ q : TravelPlanS, PlanWF q ∧ p = dumpPlan q := by
  unfold validate_travel_plan at h
  cases v with
  | dict kvs =>
    cases hn : normalizeData kvs with
    | error m => simp only [hn] at h; exact VRes.noConfusion h
    | ok kvs2 =>
      simp only [hn] at h
      cases hp : parsePlan (PyVal.dict kvs2) with
      | error m => simp only [hp] at h; exact VRes.noConfusion h
      | ok q =>
        simp only [hp] at h
        injection h with h1
        exact ⟨q, parsePlan_wf _ q hp, h1.symm⟩
  | str s => exact VRes.noConfusion h
  | num q2 => exact VRes.noConfusion h
  | bool b => exact VRes.noConfusion h
  | none => exact VRes.noConfusion h
  | list xs => exact VRes.noConfusion h

/-! ### Generator lemmas and the plan-generation claims -/

theorem providerLegs_shape (env : ProviderEnv) :
    ∀ (dests : List String) (src : String) (legs : List PyVal),
      providerLegs env src dests = Except.ok legs →
      ∀ leg ∈ legs, ∃ os, routeOptionsOf leg = Option.some os ∧ os ≠ [] := by
  intro dests
  induction dests with
  | nil =>
    intro src legs h
    simp only [providerLegs] at h
    injection h with h1
    subst h1
    intro leg hm
    exact absurd hm (List.not_mem_nil leg)
  | cons d rest ih =>
    intro src legs h
    unfold providerLegs at h
    simp only [bind, Except.bind] at h
    cases ho : get_transport_options env src d with
    | error e => simp only [ho] at h; exact Except.noConfusion h
    | ok os =>
      simp only [ho] at h
      cases hl : providerLegs env d rest with
      | error e => simp only [hl] at h; exact Except.noConfusion h
      | ok ls =>
        simp only [hl] at h
        injection h with h1
        subst h1
        intro leg hm
        rcases List.mem_cons.mp hm with h2 | h2
        · subst h2
          refine ⟨os, ?_, get_transport_options_ne_nil env src d os ho⟩
          simp [routeOptionsOf, pyGet]
        · exact ih d ls hl leg h2

theorem pipelineStep_ok_shape (t : String) (p : PyVal)
    (h : pipelineStep t = PStep.ok p) : ∃ q, PlanWF q ∧ p = dumpPlan q := by
  unfold pipelineStep at h
  cases hs : safe_json_parse t with
  | error m => simp only [hs] at h; exact PStep.noConfusion h
  | ok v =>
    simp only [hs] at h
    cases hv : validate_travel_plan v with
    | ok p2 =>
      simp only [hv] at h
      injection h with h1
      subst h1
      obtain ⟨q, hq, he⟩ := validate_wf v p2 hv
      exact ⟨q, hq, he⟩
    | caught m => simp only [hv] at h; exact PStep.noConfusion h
    | crash m => simp only [hv] at h; exact PStep.noConfusion h

theorem runAttempts_success_shape (model : Nat → ModelResult) (p : PyVal) (c : Nat)
    (h : runAttempts model = LoopOut.success p c) : ∃ q, PlanWF q ∧ p = dumpPlan q := by
  unfold runAttempts at h
  cases h0 : model 0 with
  | exc m0 =>
    simp only [h0] at h
    cases h1 : model 1 with
    | exc m1 => simp only [h1] at h; exact LoopOut.noConfusion h
    | text t =>
      simp only [h1] at h
      cases hp : pipelineStep t with
      | ok p2 =>
        simp only [hp] at h
        injection h with h2 h3
        subst h2
        exact pipelineStep_ok_shape t p2 hp
      | caughtErr e => simp only [hp] at h; exact LoopOut.noConfusion h
      | crash m => simp only [hp] at h; exact LoopOut.noConfusion h
  | text t =>
    simp only [h0] at h
    cases hp : pipelineStep t with
    | ok p2 =>
      simp only [hp] at h
      injection h with h2 h3
      subst h2
      exact pipelineStep_ok_shape t p2 hp
    | crash m => simp only [hp] at h; exact LoopOut.noConfusion h
    | caughtErr e =>
      simp only [hp] at h
      cases h1 : model 1 with
      | exc m1 => simp only [h1] at h; exact LoopOut.noConfusion h
      | text t2 =>
        simp only [h1] at h
        cases hp2 : pipelineStep t2 with
        | ok p2 =>
          simp only [hp2] at h
          injection h with h2 h3
          subst h2
          exact pipelineStep_ok_shape t2 p2 hp2
        | caughtErr e2 => simp only [hp2] at h; exact LoopOut.noConfusion h
        | crash m => simp only [hp2] at h; exact LoopOut.noConfusion h

theorem continueGen_ok (model : Nat → ModelResult) (source : String) (dests : List String)
    (sd : Option String) (budget : Q) (mem : Mem) (rfp : Option (List PyVal))
    (ds pe : Option String) (p : PyVal)
    (h : (continueGen model source dests sd budget mem rfp ds pe).outcome = GenOutcome.ok p) :
    ∃ p0 c, runAttempts model = LoopOut.success p0 c ∧
      p = annotate (overrideRoutes p0 rfp dests) ds pe := by
  unfold continueGen at h
  cases hr : runAttempts model with
  | transport f c => simp only [hr] at h; exact GenOutcome.noConfusion h
  | invalid e c => simp only [hr] at h; exact GenOutcome.noConfusion h
  | crashed m c => simp only [hr] at h; exact GenOutcome.noConfusion h
  | success p0 c =>
    simp only [hr] at h
    cases ha : memAppendTrip (pySetKey mem "last_trip" (lastTripDict source dests budget sd))
        (annotate (overrideRoutes p0 rfp dests) ds pe) with
    | ok mem2 =>
      simp only [ha] at h
      injection h with h1
      exact ⟨p0, c, rfl, h1.symm⟩
    | error m => simp only [ha] at h; exact GenOutcome.noConfusion h

theorem dumpPlan_routes (q : TravelPlanS) :
    planRoutesOf (dumpPlan q) = Option.some (q.routes.map dumpRoute) := rfl

theorem dumpPlan_dests (q : TravelPlanS) :
    planDestsOf (dumpPlan q) = Option.some (q.destinations.map PyVal.str) := rfl

theorem dumpRoute_options (r : RouteS) :
    routeOptionsOf (dumpRoute r) = Option.some (r.transport_options.map dumpOption) := rfl

theorem str_isEmpty_false (s : String) (h : s ≠ "") : s.isEmpty = false := by
  rw [Bool.eq_false_iff]
  intro hc
  exact h ((String.isEmpty_iff s).mp hc)

theorem overrideRoutes_some (p : PyVal) (kvs : List (String × PyVal))
    (hp : p = PyVal.dict kvs) (routes : List PyVal) (dests : List String)
    (hne : routes ≠ []) :
    overrideRoutes p (Option.some routes) dests =
      PyVal.dict (pySetKey (pySetKey kvs "routes" (PyVal.list routes))
        "destinations" (PyVal.list (dests.map PyVal.str))) := by
  subst hp
  simp only [overrideRoutes, List.isEmpty_iff, hne, not_false_iff, Bool.not_eq_true]
  rw [if_pos]
  · rfl
  · simp [List.isEmpty_iff, hne]

theorem annotate_fields (kvs : List (String × PyVal)) (ds : String) (hds : ds ≠ "") (pe : Option String) :
    annotate (PyVal.dict kvs) (Option.some ds) pe =
      PyVal.dict (pySetKey kvs "data_source" (PyVal.str ds)) := by
  simp only [annotate, strTruthy]
  rw [if_pos]
  · rfl
  · simp [str_isEmpty_false ds hds]

theorem annotate_err (p : PyVal) (kvs : List (String × PyVal)) (hp : p = PyVal.dict kvs)
    (pe : String) (hpe : pe ≠ "") :
    annotate p Option.none (Option.some pe) =
      PyVal.dict (pySetKey (pySetKey kvs "data_source" (PyVal.str "LLM estimates"))
        "data_source_error" (PyVal.str pe)) := by
  subst hp
  simp only [annotate, strTruthy]
  rw [if_neg, if_pos]
  · rfl
  · simp [str_isEmpty_false pe hpe]
  · simp

/-- C2: if the routing provider succeeds for every consecutive leg, the
returned plan's `routes` field is exactly the provider-derived per-leg list
(one route per leg, in leg order), its `destinations` field equals the
request's destinations, and it carries `data_source = "Geoapify routing"`,
regardless of what the model proposed. -/
theorem c2_provider_override_wins :
    ∀ (env : ProviderEnv) (model : Nat → ModelResult) (source : String) (dests : List String)
      (sd : Option String) (budget : Q) (mem : Mem) (routes : List PyVal) (p : PyVal),
      providerPhase env source dests = PPhase.ok routes →
      dests ≠ [] →
      (generate_travel_plan_json env model source dests sd budget mem).outcome = GenOutcome.ok p →
      planFieldOf p "routes" = Option.some (PyVal.list routes) ∧
      planFieldOf p "destinations" = Option.some (PyVal.list (dests.map PyVal.str)) ∧
      planFieldOf p "data_source" = Option.some (PyVal.str "Geoapify routing") ∧
      routes.length = dests.length := by
  intro env model source dests sd budget mem routes p hprov hne hok
  have hlen : routes.length = dests.length := by
    unfold providerPhase at hprov
    by_cases hk : env.apiKey
    · simp only [hk, Bool.not_true, Bool.false_eq_true, if_false] at hprov
      cases hl : providerLegs env source dests with
      | ok legs =>
        rw [hl] at hprov
        injection hprov with h1
        rw [← h1]
        exact providerLegs_length env dests source legs hl
      | error e =>
        rw [hl] at hprov
        cases e with
        | perr m => exact PPhase.noConfusion hprov
        | exc m => exact PPhase.noConfusion hprov
    · simp only [hk] at hprov
      simp at hprov
  have hne2 : routes ≠ [] := by
    intro hcon
    rw [hcon] at hlen
    exact hne (List.length_eq_zero.mp hlen.symm)
  unfold generate_travel_plan_json at hok
  rw [hprov] at hok
  obtain ⟨p0, c, hrun, hp⟩ := continueGen_ok model source dests sd budget mem
    (Option.some routes) (Option.some "Geoapify routing") Option.none p hok
  obtain ⟨q, hwf, hp0⟩ := runAttempts_success_shape model p0 c hrun
  subst hp0
  rw [overrideRoutes_some (dumpPlan q) _ rfl routes dests hne2] at hp
  rw [annotate_fields _ "Geoapify routing" (by decide) Option.none] at hp
  subst hp
  refine ⟨?_, ?_, ?_, hlen⟩
  · show pyGet _ "routes" = _
    rw [pyGet_set_other _ "data_source" "routes" _ (by decide)]
    rw [pyGet_set_other _ "destinations" "routes" _ (by decide)]
    rw [pyGet_set_same]
  · show pyGet _ "destinations" = _
    rw [pyGet_set_other _ "data_source" "destinations" _ (by decide)]
    rw [pyGet_set_same]
  · show pyGet _ "data_source" = _
    rw [pyGet_set_same]

/-- C1 (amended): a successfully generated plan has exactly N routes, each
with at least one transport option, and N destinations, when provider
routing data was obtained; when the provider failed, the plan's routes are
the model's validated ones - non-empty, each with at least one option - but
their number is not forced to equal N. -/
theorem c1_route_count_amended :
    (∀ (env : ProviderEnv) (model : Nat → ModelResult) (source : String)
      (dests : List String) (sd : Option String) (budget : Q) (mem : Mem)
      (routes : List PyVal) (p : PyVal),
      providerPhase env source dests = PPhase.ok routes → dests ≠ [] →
      (generate_travel_plan_json env model source dests sd budget mem).outcome = GenOutcome.ok p →
      planRoutesOf p = Option.some routes ∧ routes.length = dests.length ∧
      (∀ leg ∈ routes, ∃ os, routeOptionsOf leg = Option.some os ∧ os ≠ []) ∧
      planDestsOf p = Option.some (dests.map PyVal.str)) ∧
    (∀ (env : ProviderEnv) (model : Nat → ModelResult) (source : String)
      (dests : List String) (sd : Option String) (budget : Q) (mem : Mem)
      (m : String) (p : PyVal),
      providerPhase env source dests = PPhase.perr m →
      (generate_travel_plan_json env model source dests sd budget mem).outcome = GenOutcome.ok p →
      ∃ rs, planRoutesOf p = Option.some rs ∧ rs ≠ [] ∧
        ∀ leg ∈ rs, ∃ os, routeOptionsOf leg = Option.some os ∧ os ≠ []) := by
  constructor
  · intro env model source dests sd budget mem routes p hprov hne hok
    have hlegs : providerLegs env source dests = Except.ok routes := by
      unfold providerPhase at hprov
      by_cases hk : env.apiKey
      · simp only [hk, Bool.not_true, Bool.false_eq_true, if_false] at hprov
        cases hl : providerLegs env source dests with
        | ok legs =>
          rw [hl] at hprov
          injection hprov with h1
          rw [h1]
        | error e =>
          rw [hl] at hprov
          cases e with
          | perr m => exact PPhase.noConfusion hprov
          | exc m => exact PPhase.noConfusion hprov
      · simp only [hk] at hprov
        simp at hprov
    have hlen : routes.length = dests.length := providerLegs_length env dests source routes hlegs
    have hne2 : routes ≠ [] := by
      intro hcon
      rw [hcon] at hlen
      exact hne (List.length_eq_zero.mp hlen.symm)
    unfold generate_travel_plan_json at hok
    rw [hprov] at hok
    obtain ⟨p0, c, hrun, hp⟩ := continueGen_ok model source dests sd budget mem
      (Option.some routes) (Option.some "Geoapify routing") Option.none p hok
    obtain ⟨q, hwf, hp0⟩ := runAttempts_success_shape model p0 c hrun
    subst hp0
    rw [overrideRoutes_some (dumpPlan q) _ rfl routes dests hne2] at hp
    rw [annotate_fields _ "Geoapify routing" (by decide) Option.none] at hp
    subst hp
    refine ⟨?_, hlen, providerLegs_shape env dests source routes hlegs, ?_⟩
    · simp only [planRoutesOf, planFieldOf]
      rw [pyGet_set_other _ "data_source" "routes" _ (by decide)]
      rw [pyGet_set_other _ "destinations" "routes" _ (by decide)]
      rw [pyGet_set_same]
    · simp only [planDestsOf, planFieldOf]
      rw [pyGet_set_other _ "data_source" "destinations" _ (by decide)]
      rw [pyGet_set_same]
  · intro env model source dests sd budget mem m p hprov hok
    unfold generate_travel_plan_json at hok
    rw [hprov] at hok
    obtain ⟨p0, c, hrun, hp⟩ := continueGen_ok model source dests sd budget mem
      Option.none Option.none (Option.some m) p hok
    obtain ⟨q, hwf, hp0⟩ := runAttempts_success_shape model p0 c hrun
    subst hp0
    have hm : m ≠ "" := providerPhase_perr_ne env source dests m hprov
    have hov : overrideRoutes (dumpPlan q) Option.none dests = dumpPlan q := rfl
    rw [hov] at hp
    rw [annotate_err (dumpPlan q) _ rfl m hm] at hp
    subst hp
    refine ⟨q.routes.map dumpRoute, ?_, ?_, ?_⟩
    · simp only [planRoutesOf, planFieldOf]
      rw [pyGet_set_other _ "data_source_error" "routes" _ (by decide)]
      rw [pyGet_set_other _ "data_source" "routes" _ (by decide)]
      rfl
    · obtain ⟨hb, hrne, hd, hr⟩ := hwf
      simpa using hrne
    · intro leg hm2
      obtain ⟨r, hr1, hr2⟩ := List.mem_map.mp hm2
      obtain ⟨hb, hrne, hd, hwfr⟩ := hwf
      refine ⟨r.transport_options.map dumpOption, ?_, ?_⟩
      · rw [← hr2]
        exact dumpRoute_options r
      · obtain ⟨hone, _⟩ := hwfr r hr1
        simpa using hone

/-- C4 (amended): every `ProviderError` failure of the provider step is
non-fatal: generation proceeds with no provider routes, the captured error
text is non-empty, and a plan that is otherwise generated successfully
carries `data_source = "LLM estimates"` and the non-empty
`data_source_error`.  (Non-`ProviderError` exceptions, by contrast, do
escalate - see the counterexample.) -/
theorem c4_provider_error_swallowed :
    ∀ (env : ProviderEnv) (model : Nat → ModelResult) (source : String)
      (dests : List String) (sd : Option String) (budget : Q) (mem : Mem) (m : String),
      providerPhase env source dests = PPhase.perr m →
      (generate_travel_plan_json env model source dests sd budget mem =
        continueGen model source dests sd budget mem Option.none Option.none (Option.some m)) ∧
      m ≠ "" ∧
      (∀ p, (generate_travel_plan_json env model source dests sd budget mem).outcome =
          GenOutcome.ok p →
        planFieldOf p "data_source" = Option.some (PyVal.str "LLM estimates") ∧
        planFieldOf p "data_source_error" = Option.some (PyVal.str m)) := by
  intro env model source dests sd budget mem m hprov
  have hm : m ≠ "" := providerPhase_perr_ne env source dests m hprov
  refine ⟨by unfold generate_travel_plan_json; rw [hprov], hm, ?_⟩
  intro p hok
  unfold generate_travel_plan_json at hok
  rw [hprov] at hok
  obtain ⟨p0, c, hrun, hp⟩ := continueGen_ok model source dests sd budget mem
    Option.none Option.none (Option.some m) p hok
  obtain ⟨q, hwf, hp0⟩ := runAttempts_success_shape model p0 c hrun
  subst hp0
  have hov : overrideRoutes (dumpPlan q) Option.none dests = dumpPlan q := rfl
  rw [hov] at hp
  rw [annotate_err (dumpPlan q) _ rfl m hm] at hp
  subst hp
  constructor
  · simp only [planFieldOf]
    rw [pyGet_set_other _ "data_source_error" "data_source" _ (by decide)]
    rw [pyGet_set_same]
  · simp only [planFieldOf]
    rw [pyGet_set_same]

def callsOf : LoopOut → Nat
  | LoopOut.success _ c => c
  | LoopOut.transport _ c => c
  | LoopOut.invalid _ c => c
  | LoopOut.crashed _ c => c

theorem runAttempts_calls (model : Nat → ModelResult) :
    callsOf (runAttempts model) ≤ 2 := by
  unfold runAttempts
  cases h0 : model 0 with
  | exc m0 =>
    cases h1 : model 1 with
    | exc m1 => simp [callsOf]
    | text t => cases hq : pipelineStep t <;> simp [hq, callsOf]
  | text t =>
    cases hp : pipelineStep t with
    | ok p => simp [hp, callsOf]
    | crash m => simp [hp, callsOf]
    | caughtErr e =>
      cases h1 : model 1 with
      | exc m1 => simp [hp, h1, callsOf]
      | text t2 => cases hq2 : pipelineStep t2 <;> simp [hp, h1, hq2, callsOf]

theorem continueGen_calls (model : Nat → ModelResult) (source : String) (dests : List String)
    (sd : Option String) (budget : Q) (mem : Mem) (rfp : Option (List PyVal))
    (ds pe : Option String) :
    (continueGen model source dests sd budget mem rfp ds pe).calls =
      callsOf (runAttempts model) := by
  unfold continueGen
  cases runAttempts model with
  | transport f c => rfl
  | invalid e c => rfl
  | crashed m c => rfl
  | success p0 c =>
    dsimp only
    cases ha : memAppendTrip (pySetKey mem "last_trip" (lastTripDict source dests budget sd))
        (annotate (overrideRoutes p0 rfp dests) ds pe) with
    | ok mem2 => simp only [ha, callsOf]
    | error m => simp only [ha, callsOf]

/-- C5: the generator performs at most 2 model calls per request; two
transport failures end in the categorized friendly error after exactly two
calls, and two parse/validation failures end, after the single repair
round-trip, wrapping the last validation error. -/
theorem c5_retry_ceiling :
    ∀ (env : ProviderEnv) (model : Nat → ModelResult) (source : String)
      (dests : List String) (sd : Option String) (budget : Q) (mem : Mem),
      (generate_travel_plan_json env model source dests sd budget mem).calls ≤ 2 ∧
      (∀ a b, model 0 = ModelResult.exc a → model 1 = ModelResult.exc b →
        runAttempts model = LoopOut.transport (friendly_llm_error b) 2) ∧
      (∀ t e t2 e2, model 0 = ModelResult.text t → pipelineStep t = PStep.caughtErr e →
        model 1 = ModelResult.text t2 → pipelineStep t2 = PStep.caughtErr e2 →
        runAttempts model = LoopOut.invalid e2 2) := by
  intro env model source dests sd budget mem
  refine ⟨?_, ?_, ?_⟩
  · unfold generate_travel_plan_json
    cases providerPhase env source dests with
    | exc m => simp
    | perr m => rw [continueGen_calls]; exact runAttempts_calls model
    | ok routes => rw [continueGen_calls]; exact runAttempts_calls model
  · intro a b h0 h1
    unfold runAttempts
    rw [h0, h1]
  · intro t e t2 e2 h0 hpe h1 hpe2
    unfold runAttempts
    simp only [h0, hpe, h1, hpe2]

theorem continueGen_mem (model : Nat → ModelResult) (source : String) (dests : List String)
    (sd : Option String) (budget : Q) (mem : Mem) (rfp : Option (List PyVal))
    (ds pe : Option String) :
    (∀ f, (continueGen model source dests sd budget mem rfp ds pe).outcome =
      GenOutcome.transportFail f → (continueGen model source dests sd budget mem rfp ds pe).mem = mem) ∧
    (∀ e, (continueGen model source dests sd budget mem rfp ds pe).outcome =
      GenOutcome.invalidFail e → (continueGen model source dests sd budget mem rfp ds pe).mem = mem) ∧
    (∀ p ts, (continueGen model source dests sd budget mem rfp ds pe).outcome =
        GenOutcome.ok p →
      pyGet mem "generated_trips" = Option.some (PyVal.list ts) →
      (continueGen model source dests sd budget mem rfp ds pe).mem =
        pySetKey (pySetKey mem "last_trip" (lastTripDict source dests budget sd))
          "generated_trips" (PyVal.list (ts ++ [p]))) := by
  unfold continueGen
  cases hr : runAttempts model with
  | transport f0 c =>
    dsimp only
    exact ⟨fun f h => rfl, fun e h => GenOutcome.noConfusion h,
      fun p ts h _ => GenOutcome.noConfusion h⟩
  | invalid e0 c =>
    dsimp only
    exact ⟨fun f h => GenOutcome.noConfusion h, fun e h => rfl,
      fun p ts h _ => GenOutcome.noConfusion h⟩
  | crashed m0 c =>
    dsimp only
    exact ⟨fun f h => GenOutcome.noConfusion h, fun e h => GenOutcome.noConfusion h,
      fun p ts h _ => GenOutcome.noConfusion h⟩
  | success p0 c =>
    dsimp only
    cases ha : memAppendTrip (pySetKey mem "last_trip" (lastTripDict source dests budget sd))
        (annotate (overrideRoutes p0 rfp dests) ds pe) with
    | ok mem2 =>
      simp only [ha]
      refine ⟨fun f h => GenOutcome.noConfusion h, fun e h => GenOutcome.noConfusion h, ?_⟩
      intro p ts h hts
      injection h with h1
      unfold memAppendTrip at ha
      rw [pyGet_set_other _ "last_trip" "generated_trips" _ (by decide), hts] at ha
      injection ha with h2
      rw [← h2, ← h1]
    | error m0 =>
      simp only [ha]
      exact ⟨fun f h => GenOutcome.noConfusion h, fun e h => GenOutcome.noConfusion h,
        fun p ts h _ => GenOutcome.noConfusion h⟩

/-- C10: memory is mutated atomically with success: on a transport failure
or an invalid-output failure the memory is returned unchanged; on success
`last_trip` is overwritten and the returned plan is appended to
`generated_trips`. -/
theorem c10_memory_atomicity :
    ∀ (env : ProviderEnv) (model : Nat → ModelResult) (source : String)
      (dests : List String) (sd : Option String) (budget : Q) (mem : Mem),
      (∀ f, (generate_travel_plan_json env model source dests sd budget mem).outcome =
        GenOutcome.transportFail f →
        (generate_travel_plan_json env model source dests sd budget mem).mem = mem) ∧
      (∀ e, (generate_travel_plan_json env model source dests sd budget mem).outcome =
        GenOutcome.invalidFail e →
        (generate_travel_plan_json env model source dests sd budget mem).mem = mem) ∧
      (∀ p ts, (generate_travel_plan_json env model source dests sd budget mem).outcome =
          GenOutcome.ok p →
        pyGet mem "generated_trips" = Option.some (PyVal.list ts) →
        (generate_travel_plan_json env model source dests sd budget mem).mem =
          pySetKey (pySetKey mem "last_trip" (lastTripDict source dests budget sd))
            "generated_trips" (PyVal.list (ts ++ [p]))) := by
  intro env model source dests sd budget mem
  unfold generate_travel_plan_json
  cases providerPhase env source dests with
  | exc m =>
    dsimp only
    exact ⟨fun f h => GenOutcome.noConfusion h, fun e h => GenOutcome.noConfusion h,
      fun p ts h _ => GenOutcome.noConfusion h⟩
  | perr m =>
    dsimp only
    exact continueGen_mem model source dests sd budget mem Option.none Option.none (Option.some m)
  | ok routes =>
    dsimp only
    exact continueGen_mem model source dests sd budget mem (Option.some routes)
      (Option.some "Geoapify routing") Option.none

/-! ### Concrete environments, model behaviors, and runs -/

/-- Provider environment without an API key: constructing the provider
raises `ProviderError`. -/
def envNoKey : ProviderEnv :=
  ⟨false, fun _ => HttpGeo.exc "unused", fun _ _ _ => HttpRoute.exc "unused"⟩

/-- Provider environment whose HTTP layer always succeeds. -/
def envOk : ProviderEnv :=
  ⟨true, fun p => HttpGeo.resp 200 [⟨10, 20, p⟩],
    fun _ _ _ => HttpRoute.resp 200 [(Option.some 100000, Option.some 3600)]⟩

/-- Provider environment whose geocoding call raises a transport-level
exception (e.g. a `requests` connection error), which is not a
`ProviderError`. -/
def envConnFail : ProviderEnv :=
  ⟨true, fun _ => HttpGeo.exc "connection error",
    fun _ _ _ => HttpRoute.exc "connection error"⟩

/-- A syntactically valid model plan with one route for destination list
`[X]` (used where the model's own routing proposal should be irrelevant or
wrong). -/
def planText1 : String :=
  "\x7b\"source\":\"A\",\"destinations\":[\"X\"],\"budget\":100,\"routes\":[\x7b\"leg_name\":\"M\",\"transport_options\":[\"Train\"]\x7d],\"best_route_recommendation\":\"r\",\"detailed_travel_plan\":\x7b\"day_1\":\"d\"\x7d\x7d"

/-- A valid model plan declaring two destinations but only one route. -/
def planText2 : String :=
  "\x7b\"source\":\"A\",\"destinations\":[\"B\",\"C\"],\"budget\":100,\"routes\":[\x7b\"leg_name\":\"L\",\"transport_options\":[\"Bus\"]\x7d],\"best_route_recommendation\":\"r\",\"detailed_travel_plan\":\x7b\"day_1\":\"d\"\x7d\x7d"

/-- The invalid-source sentinel object, as model output text. -/
def sentinelText : String := "\x7b\"error\": \"Enter a valid source\"\x7d"

def modelPlan1 : Nat → ModelResult := fun _ => ModelResult.text planText1

def modelPlan2 : Nat → ModelResult := fun _ => ModelResult.text planText2

def modelSentinel : Nat → ModelResult := fun _ => ModelResult.text sentinelText

def modelExc2 : Nat → ModelResult := fun _ => ModelResult.exc "Error 429 quota exceeded"

/-- The memory as `init_memory` creates it (memory.py). -/
def mem0 : Mem :=
  [("chat_history", PyVal.list []), ("last_trip", PyVal.none),
    ("generated_trips", PyVal.list []), ("preferences", PyVal.dict [])]

/-- The plan returned by a fully successful run against `envOk`. -/
def okPlan : PyVal :=
  match (generate_travel_plan_json envOk modelPlan1 "A" ["B"] Option.none 100 []).outcome with
  | GenOutcome.ok p => p
  | _ => PyVal.none

/-- The provider-derived per-leg routes of that run. -/
def provRoutes : List PyVal :=
  match providerPhase envOk "A" ["B"] with
  | PPhase.ok rs => rs
  | _ => []

/-- C1 counterexample: with the provider unavailable, a request with two
destinations is answered successfully by a validated model plan containing
a single route; the returned plan has 1 route for N = 2 destinations, so
the claimed invariant does not hold without provider data. -/
theorem c1_counterexample :
    (match (generate_travel_plan_json envNoKey modelPlan2 "A" ["B", "C"]
        Option.none 100 []).outcome with
      | GenOutcome.ok p => (planRoutesOf p).map List.length
      | _ => Option.none) = Option.some 1 ∧
    (["B", "C"] : List String).length = 2 := ⟨rfl, rfl⟩

/-- C1 witness: the amended theorem applied to a concrete successful run
with provider data. -/
theorem c1_witness :
    planRoutesOf okPlan = Option.some provRoutes ∧ provRoutes.length = 1 ∧
    planDestsOf okPlan = Option.some [PyVal.str "B"] := by
  obtain ⟨ha, hb, hcc, hd⟩ := c1_route_count_amended.1 envOk modelPlan1 "A" ["B"]
    Option.none 100 [] provRoutes okPlan rfl (by decide) rfl
  exact ⟨ha, hb, hd⟩

/-- C2 witness: the override theorem applied to a concrete run in which the
model proposed different routes and destinations. -/
theorem c2_witness :
    planFieldOf okPlan "routes" = Option.some (PyVal.list provRoutes) ∧
    planFieldOf okPlan "destinations" = Option.some (PyVal.list [PyVal.str "B"]) ∧
    planFieldOf okPlan "data_source" = Option.some (PyVal.str "Geoapify routing") ∧
    provRoutes.length = 1 :=
  c2_provider_override_wins envOk modelPlan1 "A" ["B"] Option.none 100 []
    provRoutes okPlan rfl (by decide) rfl

/-- C3: the pipeline does not surface the sentinel object as-is: the
sentinel parses, schema validation is applied to it and fails, the repair
retry is consumed, and generation fails with the invalid-output error.
(The caller in app.py checks `"error" in travel_data` on the returned
plan, a branch this behavior makes unreachable, so the claim reflects
intent the code does not implement.) -/
theorem c3_sentinel_not_surfaced :
    safe_json_parse sentinelText =
      Except.ok (PyVal.dict [("error", PyVal.str "Enter a valid source")]) ∧
    validate_travel_plan (PyVal.dict [("error", PyVal.str "Enter a valid source")]) =
      VRes.caught "source: field required" ∧
    generate_travel_plan_json envNoKey modelSentinel "A" ["B"] Option.none 100 mem0 =
      ⟨GenOutcome.invalidFail "LLM output invalid: source: field required", mem0, 2⟩ :=
  ⟨rfl, rfl, rfl⟩

/-- C4 counterexample: a transport-level exception from the provider's
HTTP layer (not a `ProviderError`) escapes `generate_travel_plan_json`
and aborts generation with no annotation, so a provider failure of
arbitrary cause can escalate to a generation failure. -/
theorem c4_counterexample :
    generate_travel_plan_json envConnFail modelPlan1 "A" ["B"] Option.none 100 [] =
      ⟨GenOutcome.crash "connection error", [], 0⟩ := rfl

/-- The plan from a successful run with the provider key missing. -/
def noKeyPlan : PyVal :=
  match (generate_travel_plan_json envNoKey modelPlan1 "A" ["B"] Option.none 100 []).outcome with
  | GenOutcome.ok p => p
  | _ => PyVal.none

/-- C4 witness: the amended theorem applied to the missing-key run. -/
theorem c4_witness :
    (generate_travel_plan_json envNoKey modelPlan1 "A" ["B"] Option.none 100 [] =
      continueGen modelPlan1 "A" ["B"] Option.none 100 [] Option.none Option.none
        (Option.some "GEOAPIFY_API_KEY is not set")) ∧
    ("GEOAPIFY_API_KEY is not set" : String) ≠ "" ∧
    planFieldOf noKeyPlan "data_source" = Option.some (PyVal.str "LLM estimates") ∧
    planFieldOf noKeyPlan "data_source_error" =
      Option.some (PyVal.str "GEOAPIFY_API_KEY is not set") := by
  obtain ⟨h1, h2, h3⟩ := c4_provider_error_swallowed envNoKey modelPlan1 "A" ["B"]
    Option.none 100 [] "GEOAPIFY_API_KEY is not set" rfl
  obtain ⟨h4, h5⟩ := h3 noKeyPlan rfl
  exact ⟨h1, h2, h4, h5⟩

/-- C5 witness: a run whose two model calls both fail at the transport
level ends in the rate-limit category after exactly two calls. -/
theorem c5_witness :
    (generate_travel_plan_json envNoKey modelExc2 "A" ["B"] Option.none 100 []).calls ≤ 2 ∧
    runAttempts modelExc2 = LoopOut.transport
      "The AI service rate limit was exceeded. Please try again later." 2 := by
  obtain ⟨h1, h2, h3⟩ := c5_retry_ceiling envNoKey modelExc2 "A" ["B"] Option.none 100 []
  exact ⟨h1, h2 "Error 429 quota exceeded" "Error 429 quota exceeded" rfl rfl⟩

/-- The plan of the successful run used for the memory witness. -/
def memRunPlan : PyVal :=
  match (generate_travel_plan_json envNoKey modelPlan1 "A" ["B"] Option.none 100 mem0).outcome with
  | GenOutcome.ok p => p
  | _ => PyVal.none

/-- C10 witness: the memory theorem applied to a concrete successful run
starting from the initial memory. -/
theorem c10_witness :
    (generate_travel_plan_json envNoKey modelPlan1 "A" ["B"] Option.none 100 mem0).mem =
      pySetKey (pySetKey mem0 "last_trip" (lastTripDict "A" ["B"] 100 Option.none))
        "generated_trips" (PyVal.list ([] ++ [memRunPlan])) :=
  (c10_memory_atomicity envNoKey modelPlan1 "A" ["B"] Option.none 100 mem0).2.2
    memRunPlan [] rfl rfl

/-! ### Validation claims: costs, normalization, idempotence -/

theorem costOf_dump (o : TransportOptionS) :
    costOf (dumpOption o) = [(o.estimated_cost.min, o.estimated_cost.max)] := rfl

theorem optionCosts_dump_wf (os : List TransportOptionS) (hwf : ∀ o ∈ os, OptionWF o) :
    ∀ mm ∈ optionCosts (os.map dumpOption),
      Q.Le 0 mm.1 ∧ Q.Le 0 mm.2 ∧ Q.Le mm.1 mm.2 := by
  induction os with
  | nil => intro mm hm; exact absurd hm (List.not_mem_nil mm)
  | cons o rest ih =>
    intro mm hm
    simp only [List.map_cons, optionCosts, costOf_dump] at hm
    rcases List.mem_append.mp hm with h1 | h1
    · rcases List.mem_singleton.mp h1 with h2
      obtain ⟨hd, hv, hc1, hc2, hc3⟩ := hwf o (List.mem_cons_self o rest)
      subst h2
      exact ⟨hc1, hc2, hc3⟩
    · exact ih (fun o2 ho2 => hwf o2 (List.mem_cons_of_mem o ho2)) mm h1

theorem routesCosts_dump_wf (rs : List RouteS)
    (hwf : ∀ r ∈ rs, ∀ o ∈ r.transport_options, OptionWF o) :
    ∀ mm ∈ routesCosts (rs.map dumpRoute),
      Q.Le 0 mm.1 ∧ Q.Le 0 mm.2 ∧ Q.Le mm.1 mm.2 := by
  induction rs with
  | nil => intro mm hm; exact absurd hm (List.not_mem_nil mm)
  | cons r rest ih =>
    intro mm hm
    simp only [List.map_cons, routesCosts, dumpRoute_options] at hm
    rcases List.mem_append.mp hm with h1 | h1
    · exact optionCosts_dump_wf r.transport_options
        (hwf r (List.mem_cons_self r rest)) mm h1
    · exact ih (fun r2 hr2 => hwf r2 (List.mem_cons_of_mem r hr2)) mm h1

/-- The bad-cost input: a full plan whose only option has min 5 > max 3. -/
def badCostPlan : PyVal := PyVal.dict [
  ("source", PyVal.str "A"),
  ("destinations", PyVal.list [PyVal.str "B"]),
  ("budget", PyVal.num 1000),
  ("routes", PyVal.list [PyVal.dict [("leg_name", PyVal.str "L"),
    ("transport_options", PyVal.list [PyVal.dict [("mode", PyVal.str "Bus"),
      ("estimated_travel_time", PyVal.str "2 hr"),
      ("distance_km", PyVal.num 10),
      ("available_vehicles", PyVal.list [PyVal.str "Bus"]),
      ("estimated_cost", PyVal.dict [("min", PyVal.num 5), ("max", PyVal.num 3)]),
      ("route_summary", PyVal.str "")]])]]),
  ("best_route_recommendation", PyVal.str "r"),
  ("detailed_travel_plan", PyVal.dict [("day_1", PyVal.str "d")])]

/-- C8: every estimated-cost pair in a successfully validated plan
satisfies 0 <= min, 0 <= max and min <= max, and a plan whose cost has
min > max is rejected by validation with the min/max error. -/
theorem c8_cost_invariant :
    (∀ v p, validate_travel_plan v = VRes.ok p →
      ∀ mm ∈ planCosts p, Q.Le 0 mm.1 ∧ Q.Le 0 mm.2 ∧ Q.Le mm.1 mm.2) ∧
    validate_travel_plan badCostPlan =
      VRes.caught "estimated_cost.min must be <= estimated_cost.max" := by
  constructor
  · intro v p hv mm hm
    obtain ⟨q, hwf, hp⟩ := validate_wf v p hv
    subst hp
    obtain ⟨hb, hrne, hdd, hr⟩ := hwf
    have : planCosts (dumpPlan q) = routesCosts (q.routes.map dumpRoute) := rfl
    rw [this] at hm
    exact routesCosts_dump_wf q.routes (fun r2 hr2 => (hr r2 hr2).2) mm hm
  · rfl

theorem vStrList_dump (k : String) (ss : List String) :
    vStrList k (ss.map PyVal.str) = Except.ok ss := by
  induction ss with
  | nil => rfl
  | cons s rest ih => simp [vStrList, ih, Except.map]

theorem parseDetail_dump (ds : List (String × String)) :
    parseDetail (ds.map (fun kv => (kv.1, PyVal.str kv.2))) = Except.ok ds := by
  induction ds with
  | nil => rfl
  | cons kv rest ih =>
    obtain ⟨k, v⟩ := kv
    simp [parseDetail, ih, Except.map]

theorem parseCost_dump (c : EstimatedCostS) (hwf : CostWF c) :
    parseCost (dumpCost c) = Except.ok c := by
  obtain ⟨h1, h2, h3⟩ := hwf
  have e1 : Q.ltB c.min 0 = false := by
    simp only [Q.ltB, decide_eq_false_iff_not, Q.Lt, q_zero_n, q_zero_d]
    simp only [Q.Le, q_zero_n, q_zero_d] at h1
    omega
  have e2 : Q.ltB c.max 0 = false := by
    simp only [Q.ltB, decide_eq_false_iff_not, Q.Lt, q_zero_n, q_zero_d]
    simp only [Q.Le, q_zero_n, q_zero_d] at h2
    omega
  have e3 : Q.ltB c.max c.min = false := by
    simp only [Q.ltB, decide_eq_false_iff_not, Q.Lt]
    simp only [Q.Le] at h3
    omega
  unfold parseCost dumpCost
  simp only [bind, Except.bind, vGetNum, pyGet]
  simp only [show (("min" : String) = "min") = True from by simp, if_true]
  simp [vGetNum, pyGet, e1, e2, e3]

theorem parseOption_dump (o : TransportOptionS) (hwf : OptionWF o) :
    parseOption (dumpOption o) = Except.ok o := by
  obtain ⟨h1, h2, h3⟩ := hwf
  have e1 : Q.ltB 0 o.distance_km = true := by
    simp only [Q.ltB, decide_eq_true_eq]
    exact h1
  have e2 : o.available_vehicles.isEmpty = false := by
    cases hv : o.available_vehicles with
    | nil => exact absurd hv h2
    | cons a rest => rfl
  unfold parseOption dumpOption
  simp only [bind, Except.bind]
  simp [vGetStr, vGetNum, pyGet, e1, e2, vStrList_dump, parseCost_dump o.estimated_cost h3]

theorem parseOptions_dump (os : List TransportOptionS) (hwf : ∀ o ∈ os, OptionWF o) :
    parseOptions (os.map dumpOption) = Except.ok os := by
  induction os with
  | nil => rfl
  | cons o rest ih =>
    simp only [List.map_cons, parseOptions, bind, Except.bind]
    rw [parseOption_dump o (hwf o (List.mem_cons_self o rest))]
    rw [ih (fun o2 ho2 => hwf o2 (List.mem_cons_of_mem o ho2))]

theorem parseRoute_dump (r : RouteS) (hne : r.transport_options ≠ [])
    (hwf : ∀ o ∈ r.transport_options, OptionWF o) :
    parseRoute (dumpRoute r) = Except.ok r := by
  have e2 : r.transport_options.isEmpty = false := by
    cases hv : r.transport_options with
    | nil => exact absurd hv hne
    | cons a rest => rfl
  unfold parseRoute dumpRoute
  simp only [bind, Except.bind]
  simp [vGetStr, pyGet, parseOptions_dump r.transport_options hwf, e2]

theorem parseRoutes_dump (rs : List RouteS)
    (hwf : ∀ r ∈ rs, r.transport_options ≠ [] ∧ ∀ o ∈ r.transport_options, OptionWF o) :
    parseRoutes (rs.map dumpRoute) = Except.ok rs := by
  induction rs with
  | nil => rfl
  | cons r rest ih =>
    obtain ⟨hne, hos⟩ := hwf r (List.mem_cons_self r rest)
    simp only [List.map_cons, parseRoutes, bind, Except.bind]
    rw [parseRoute_dump r hne hos]
    rw [ih (fun r2 hr2 => hwf r2 (List.mem_cons_of_mem r hr2))]

theorem parsePlan_dump (q : TravelPlanS) (hwf : PlanWF q) :
    parsePlan (dumpPlan q) = Except.ok q := by
  obtain ⟨hb, hrne, hdd, hr⟩ := hwf
  have e1 : Q.ltB 0 q.budget = true := by
    simp only [Q.ltB, decide_eq_true_eq]
    exact hb
  have e2 : q.routes.isEmpty = false := by
    cases hv : q.routes with
    | nil => exact absurd hv hrne
    | cons a rest => rfl
  have e25 : (q.routes.map dumpRoute).isEmpty = false := by
    cases hv : q.routes with
    | nil => exact absurd hv hrne
    | cons a rest => rfl
  have e3 : q.detailed_travel_plan.isEmpty = false := by
    cases hv : q.detailed_travel_plan with
    | nil => exact absurd hv hdd
    | cons a rest => rfl
  have e35 : (q.detailed_travel_plan.map (fun kv => (kv.1, PyVal.str kv.2))).isEmpty = false := by
    cases hv : q.detailed_travel_plan with
    | nil => exact absurd hv hdd
    | cons a rest => rfl
  unfold parsePlan dumpPlan
  simp only [bind, Except.bind]
  simp [vGetStr, vGetNum, pyGet, e1, e2, e3, vStrList_dump, parseRoutes_dump q.routes hr,
    parseDetail_dump, e25, e35]

theorem normalizeOption_dump (o : TransportOptionS) (hm : o.mode ≠ "") :
    normalizeOption [("mode", PyVal.str o.mode),
      ("estimated_travel_time", PyVal.str o.estimated_travel_time),
      ("distance_km", PyVal.num o.distance_km),
      ("available_vehicles", PyVal.list (o.available_vehicles.map PyVal.str)),
      ("estimated_cost", dumpCost o.estimated_cost),
      ("route_summary", PyVal.str o.route_summary)] = Except.ok (dumpOption o) := by
  unfold normalizeOption
  simp [pyGet, pyHasKey, pyOr, pyTruthy, hm, dumpOption, dumpCost, bind, Except.bind]

theorem normalizeOptList_dump (os : List TransportOptionS)
    (hm : ∀ o ∈ os, o.mode ≠ "") :
    normalizeOptList (os.map dumpOption) = Except.ok (os.map dumpOption) := by
  induction os with
  | nil => rfl
  | cons o rest ih =>
    simp only [List.map_cons]
    show normalizeOptList (PyVal.dict [("mode", PyVal.str o.mode),
      ("estimated_travel_time", PyVal.str o.estimated_travel_time),
      ("distance_km", PyVal.num o.distance_km),
      ("available_vehicles", PyVal.list (o.available_vehicles.map PyVal.str)),
      ("estimated_cost", dumpCost o.estimated_cost),
      ("route_summary", PyVal.str o.route_summary)] :: rest.map dumpOption) = _
    unfold normalizeOptList
    rw [normalizeOption_dump o (hm o (List.mem_cons_self o rest))]
    simp only [bind, Except.bind]
    rw [ih (fun o2 ho2 => hm o2 (List.mem_cons_of_mem o ho2))]

theorem all_isDict_dump (os : List TransportOptionS) :
    (os.map dumpOption).all isDictVal = true := by
  induction os with
  | nil => rfl
  | cons o rest ih => simp only [List.map_cons, List.all_cons, ih]; rfl

theorem normRoute_dump (idx : Nat) (r : RouteS) (hne : r.transport_options ≠ [])
    (hm : ∀ o ∈ r.transport_options, o.mode ≠ "") :
    normRoute idx (dumpRoute r) = Except.ok (dumpRoute r) := by
  have hastr : (r.transport_options.map dumpOption).all isStrVal = false := by
    cases hv : r.transport_options with
    | nil => exact absurd hv hne
    | cons o os => rfl
  have hemp : (r.transport_options.map dumpOption).isEmpty = false := by
    cases hv : r.transport_options with
    | nil => exact absurd hv hne
    | cons o os => rfl
  unfold normRoute dumpRoute
  simp only [pyHasKey, pyGet]
  simp only [show (("leg_name" : String) = "transport_options") = False from by simp,
    show (("transport_options" : String) = "transport_options") = True from by simp,
    show (("leg_name" : String) = "leg_name") = True from by simp,
    if_true, if_false, iff_true, Bool.true_and, Bool.or_true, Bool.true_or, Bool.or_false]
  simp only [hemp, Bool.not_false, if_true, hastr, Bool.false_eq_true, if_false,
    all_isDict_dump, bind, Except.bind]
  rw [normalizeOptList_dump r.transport_options hm]
  simp [pySetKey]

theorem normRoutes_dump (rs : List RouteS) :
    ∀ (idx : Nat), (∀ r ∈ rs, r.transport_options ≠ []) →
    (∀ r ∈ rs, ∀ o ∈ r.transport_options, o.mode ≠ "") →
    normRoutes idx (rs.map dumpRoute) = Except.ok (rs.map dumpRoute) := by
  induction rs with
  | nil => intro idx h1 h2; rfl
  | cons r rest ih =>
    intro idx h1 h2
    simp only [List.map_cons]
    unfold normRoutes
    rw [normRoute_dump idx r (h1 r (List.mem_cons_self r rest)) (h2 r (List.mem_cons_self r rest))]
    simp only [bind, Except.bind]
    rw [ih (idx + 1) (fun r2 hr2 => h1 r2 (List.mem_cons_of_mem r hr2))
      (fun r2 hr2 => h2 r2 (List.mem_cons_of_mem r hr2))]

theorem normalizeData_dump (q : TravelPlanS) (hne : ∀ r ∈ q.routes, r.transport_options ≠ [])
    (hm : ∀ r ∈ q.routes, ∀ o ∈ r.transport_options, o.mode ≠ "") :
    normalizeData [("source", PyVal.str q.source),
      ("destinations", PyVal.list (q.destinations.map PyVal.str)),
      ("budget", PyVal.num q.budget),
      ("routes", PyVal.list (q.routes.map dumpRoute)),
      ("best_route_recommendation", PyVal.str q.best_route_recommendation),
      ("detailed_travel_plan",
        PyVal.dict (q.detailed_travel_plan.map (fun kv => (kv.1, PyVal.str kv.2))))] =
    Except.ok [("source", PyVal.str q.source),
      ("destinations", PyVal.list (q.destinations.map PyVal.str)),
      ("budget", PyVal.num q.budget),
      ("routes", PyVal.list (q.routes.map dumpRoute)),
      ("best_route_recommendation", PyVal.str q.best_route_recommendation),
      ("detailed_travel_plan",
        PyVal.dict (q.detailed_travel_plan.map (fun kv => (kv.1, PyVal.str kv.2))))] := by
  unfold normalizeData
  simp only [pyGet, pyHasKey]
  simp only [show (("source" : String) = "routes") = False from by simp,
    show (("destinations" : String) = "routes") = False from by simp,
    show (("budget" : String) = "routes") = False from by simp,
    show (("routes" : String) = "routes") = True from by simp,
    show (("source" : String) = "destinations") = False from by simp,
    show (("destinations" : String) = "destinations") = True from by simp,
    if_true, if_false, iff_true, Bool.true_or, Bool.or_true, Bool.false_or]
  rw [normRoutes_dump q.routes 0 hne hm]
  simp only [bind, Except.bind]
  simp [pySetKey, pyHasKey]

/-- C9 (amended): normalization-and-validation is idempotent on canonical
plans all of whose transport options carry a non-empty mode: re-validating
the dump of any well-formed plan returns the dump unchanged.  (A canonical
plan with an empty-string mode is re-normalized to mode "Route" - see the
counterexample.) -/
theorem c9_idempotence_amended :
    ∀ q : TravelPlanS, PlanWF q → ModesWF q →
      validate_travel_plan (dumpPlan q) = VRes.ok (dumpPlan q) := by
  intro q hwf hm
  obtain ⟨hb, hrne, hdd, hr⟩ := hwf
  show (match normalizeData [("source", PyVal.str q.source),
      ("destinations", PyVal.list (q.destinations.map PyVal.str)),
      ("budget", PyVal.num q.budget),
      ("routes", PyVal.list (q.routes.map dumpRoute)),
      ("best_route_recommendation", PyVal.str q.best_route_recommendation),
      ("detailed_travel_plan",
        PyVal.dict (q.detailed_travel_plan.map (fun kv => (kv.1, PyVal.str kv.2))))] with
    | Except.error m => VRes.crash m
    | Except.ok kvs2 =>
      match parsePlan (PyVal.dict kvs2) with
      | Except.error m => VRes.caught m
      | Except.ok p => VRes.ok (dumpPlan p)) = VRes.ok (dumpPlan q)
  rw [normalizeData_dump q (fun r2 hr2 => (hr r2 hr2).1) hm]
  dsimp only
  have hp : parsePlan (PyVal.dict [("source", PyVal.str q.source),
      ("destinations", PyVal.list (q.destinations.map PyVal.str)),
      ("budget", PyVal.num q.budget),
      ("routes", PyVal.list (q.routes.map dumpRoute)),
      ("best_route_recommendation", PyVal.str q.best_route_recommendation),
      ("detailed_travel_plan",
        PyVal.dict (q.detailed_travel_plan.map (fun kv => (kv.1, PyVal.str kv.2))))]) =
      Except.ok q := parsePlan_dump q ⟨hb, hrne, hdd, hr⟩
  rw [hp]

theorem pyGet_hasKey (kvs : List (String × PyVal)) (k : String) (v : PyVal)
    (h : pyGet kvs k = Option.some v) : pyHasKey kvs k = true := by
  induction kvs with
  | nil => simp [pyGet] at h
  | cons kv rest ih =>
    obtain ⟨k1, w⟩ := kv
    by_cases h1 : k1 = k
    · simp [pyHasKey, h1]
    · simp only [pyGet, h1, if_false] at h
      simp [pyHasKey, h1, ih h]

theorem c7_strings_expand :
    ∀ (idx : Nat) (kvs : List (String × PyVal)) (ss : List String),
      pyGet kvs "transport_options" = Option.some (PyVal.list (ss.map PyVal.str)) →
      ss ≠ [] →
      pyHasKey kvs "leg_name" = true →
      normRoute idx (PyVal.dict kvs) = Except.ok (PyVal.dict (pySetKey kvs "transport_options"
        (PyVal.list (ss.map (fun s => PyVal.dict [("mode", PyVal.str s),
          ("estimated_travel_time", PyVal.str "N/A"),
          ("distance_km", PyVal.num 1),
          ("available_vehicles", PyVal.list [PyVal.str s]),
          ("estimated_cost", PyVal.dict [("min", PyVal.num 0), ("max", PyVal.num 0),
            ("currency", PyVal.str "INR")]),
          ("route_summary", PyVal.str "")]))))) := by
  intro idx kvs ss hg hne hleg
  have hemp : (ss.map PyVal.str).isEmpty = false := by
    cases hv : ss with
    | nil => exact absurd hv hne
    | cons a rest => rfl
  have hall : (ss.map PyVal.str).all isStrVal = true := by
    clear hg hne hemp
    induction ss with
    | nil => rfl
    | cons a rest ih =>
      simp only [List.map_cons, List.all_cons, ih, Bool.and_true]
      rfl
  unfold normRoute
  simp only [pyGet_hasKey kvs "transport_options" _ hg, hleg, Bool.and_self, if_true, hg,
    hemp, Bool.not_false, hall]
  rw [List.map_map]
  rfl

theorem c7_numeric_cost :
    ∀ (o : List (String × PyVal)) (n : Q) (r : PyVal),
      pyGet o "estimated_cost" = Option.some (PyVal.num n) →
      normalizeOption o = Except.ok r →
      planFieldOf r "estimated_cost" = Option.some (PyVal.dict
        [("min", PyVal.num n), ("max", PyVal.num n), ("currency", PyVal.str "INR")]) := by
  intro o n r hg h
  unfold normalizeOption at h
  simp only [bind, Except.bind, hg] at h
  cases hv : pyGet o "available_vehicles" with
  | none =>
    simp only [hv] at h
    cases hmo : pyOr (pyGet o "mode") (pyOr (pyGet o "type") (PyVal.str "Route")) with
    | str ms =>
      simp only [hmo] at h
      injection h with h1
      subst h1
      simp [planFieldOf, pyGet]
    | num q2 => simp only [hmo] at h; exact Except.noConfusion h
    | bool b => simp only [hmo] at h; exact Except.noConfusion h
    | none => simp only [hmo] at h; exact Except.noConfusion h
    | list xs => simp only [hmo] at h; exact Except.noConfusion h
    | dict d2 => simp only [hmo] at h; exact Except.noConfusion h
  | some v =>
    simp only [hv] at h
    cases v with
    | none =>
      cases hmo : pyOr (pyGet o "mode") (pyOr (pyGet o "type") (PyVal.str "Route")) with
      | str ms =>
        simp only [hmo] at h
        injection h with h1
        subst h1
        simp [planFieldOf, pyGet]
      | num q2 => simp only [hmo] at h; exact Except.noConfusion h
      | bool b => simp only [hmo] at h; exact Except.noConfusion h
      | none => simp only [hmo] at h; exact Except.noConfusion h
      | list xs => simp only [hmo] at h; exact Except.noConfusion h
      | dict d2 => simp only [hmo] at h; exact Except.noConfusion h
    | str s =>
      injection h with h1
      subst h1
      simp [planFieldOf, pyGet]
    | num q2 =>
      injection h with h1
      subst h1
      simp [planFieldOf, pyGet]
    | bool b =>
      injection h with h1
      subst h1
      simp [planFieldOf, pyGet]
    | list xs =>
      injection h with h1
      subst h1
      simp [planFieldOf, pyGet]
    | dict d2 =>
      injection h with h1
      subst h1
      simp [planFieldOf, pyGet]

/-- A legacy single-option plan: its route has `route_name` and a numeric
`estimated_cost`, with no `transport_options`. -/
def legacyPlanIn : PyVal := PyVal.dict [
  ("source", PyVal.str "A"),
  ("destinations", PyVal.list [PyVal.str "B"]),
  ("budget", PyVal.num 1000),
  ("routes", PyVal.list [PyVal.dict [("route_name", PyVal.str "Bus"),
    ("estimated_cost", PyVal.num 500)]]),
  ("best_route_recommendation", PyVal.str "r"),
  ("detailed_travel_plan", PyVal.dict [("day_1", PyVal.str "d")])]

/-- The canonical result of validating `legacyPlanIn`: one route with a
single transport option whose cost is min 500, max 500, INR. -/
def legacyPlanOut : PyVal := PyVal.dict [
  ("source", PyVal.str "A"),
  ("destinations", PyVal.list [PyVal.str "B"]),
  ("budget", PyVal.num 1000),
  ("routes", PyVal.list [PyVal.dict [("leg_name", PyVal.str "Leg 1"),
    ("transport_options", PyVal.list [PyVal.dict [("mode", PyVal.str "Route"),
      ("estimated_travel_time", PyVal.str "N/A"),
      ("distance_km", PyVal.num 1),
      ("available_vehicles", PyVal.list [PyVal.str "Route"]),
      ("estimated_cost", PyVal.dict [("min", PyVal.num 500), ("max", PyVal.num 500),
        ("currency", PyVal.str "INR")]),
      ("route_summary", PyVal.str "")]])]]),
  ("best_route_recommendation", PyVal.str "r"),
  ("detailed_travel_plan", PyVal.dict [("day_1", PyVal.str "d")])]

/-- C7: normalization maps legacy/alternate route shapes to the canonical
one before strict validation: (a) the legacy single-option plan above
validates to a route with exactly one option whose estimated cost is
min 500, max 500, INR; (b) a `transport_options` list of bare strings
expands each string into a full option with time "N/A", distance 1, the
string as sole vehicle, and zero cost; (c) a numeric `estimated_cost` n
becomes the object with min n, max n, currency INR. -/
theorem c7_legacy_normalization :
    (validate_travel_plan legacyPlanIn = VRes.ok legacyPlanOut) ∧
    (∀ (idx : Nat) (kvs : List (String × PyVal)) (ss : List String),
      pyGet kvs "transport_options" = Option.some (PyVal.list (ss.map PyVal.str)) →
      ss ≠ [] →
      pyHasKey kvs "leg_name" = true →
      normRoute idx (PyVal.dict kvs) = Except.ok (PyVal.dict (pySetKey kvs "transport_options"
        (PyVal.list (ss.map (fun s => PyVal.dict [("mode", PyVal.str s),
          ("estimated_travel_time", PyVal.str "N/A"),
          ("distance_km", PyVal.num 1),
          ("available_vehicles", PyVal.list [PyVal.str s]),
          ("estimated_cost", PyVal.dict [("min", PyVal.num 0), ("max", PyVal.num 0),
            ("currency", PyVal.str "INR")]),
          ("route_summary", PyVal.str "")])))))) ∧
    (∀ (o : List (String × PyVal)) (n : Q) (r : PyVal),
      pyGet o "estimated_cost" = Option.some (PyVal.num n) →
      normalizeOption o = Except.ok r →
      planFieldOf r "estimated_cost" = Option.some (PyVal.dict
        [("min", PyVal.num n), ("max", PyVal.num n), ("currency", PyVal.str "INR")])) :=
  ⟨rfl, c7_strings_expand, c7_numeric_cost⟩

/-- The result of normalizing an option dict holding only a numeric cost. -/
def c7r : PyVal :=
  match normalizeOption [("estimated_cost", PyVal.num 500)] with
  | Except.ok r => r
  | _ => PyVal.none

/-- C7 witness: the expansion and numeric-cost parts applied to concrete
inputs. -/
theorem c7_witness :
    normRoute 0 (PyVal.dict [("leg_name", PyVal.str "L"),
      ("transport_options", PyVal.list [PyVal.str "Bus"])]) =
      Except.ok (PyVal.dict (pySetKey [("leg_name", PyVal.str "L"),
        ("transport_options", PyVal.list [PyVal.str "Bus"])] "transport_options"
        (PyVal.list (["Bus"].map (fun s => PyVal.dict [("mode", PyVal.str s),
          ("estimated_travel_time", PyVal.str "N/A"),
          ("distance_km", PyVal.num 1),
          ("available_vehicles", PyVal.list [PyVal.str s]),
          ("estimated_cost", PyVal.dict [("min", PyVal.num 0), ("max", PyVal.num 0),
            ("currency", PyVal.str "INR")]),
          ("route_summary", PyVal.str "")]))))) ∧
    planFieldOf c7r "estimated_cost" = Option.some (PyVal.dict
      [("min", PyVal.num 500), ("max", PyVal.num 500), ("currency", PyVal.str "INR")]) := by
  obtain ⟨h1, h2, h3⟩ := c7_legacy_normalization
  exact ⟨h2 0 [("leg_name", PyVal.str "L"),
      ("transport_options", PyVal.list [PyVal.str "Bus"])] ["Bus"] rfl (by decide) rfl,
    h3 [("estimated_cost", PyVal.num 500)] 500 c7r rfl rfl⟩

/-- A well-formed plan input whose only cost is min 2, max 7. -/
def c8okInput : PyVal := PyVal.dict [
  ("source", PyVal.str "A"),
  ("destinations", PyVal.list [PyVal.str "B"]),
  ("budget", PyVal.num 1000),
  ("routes", PyVal.list [PyVal.dict [("leg_name", PyVal.str "L"),
    ("transport_options", PyVal.list [PyVal.dict [("mode", PyVal.str "Bus"),
      ("estimated_travel_time", PyVal.str "2 hr"),
      ("distance_km", PyVal.num 10),
      ("available_vehicles", PyVal.list [PyVal.str "Bus"]),
      ("estimated_cost", PyVal.dict [("min", PyVal.num 2), ("max", PyVal.num 7)]),
      ("route_summary", PyVal.str "")]])]]),
  ("best_route_recommendation", PyVal.str "r"),
  ("detailed_travel_plan", PyVal.dict [("day_1", PyVal.str "d")])]

/-- The validated output for `c8okInput`. -/
def c8okOut : PyVal :=
  match validate_travel_plan c8okInput with
  | VRes.ok p => p
  | _ => PyVal.none

/-- C8 witness: the invariant theorem applied to the concrete validated
plan and its cost pair. -/
theorem c8_witness :
    Q.Le 0 (2 : Q) ∧ Q.Le 0 (7 : Q) ∧ Q.Le (2 : Q) (7 : Q) :=
  c8_cost_invariant.1 c8okInput c8okOut rfl ((2 : Q), (7 : Q)) (by decide)

/-- A plan input whose route's `transport_options` is the bare-string list
containing only the empty string. -/
def c9x0 : PyVal := PyVal.dict [
  ("source", PyVal.str "A"),
  ("destinations", PyVal.list [PyVal.str "B"]),
  ("budget", PyVal.num 1000),
  ("routes", PyVal.list [PyVal.dict [("leg_name", PyVal.str "A -> B"),
    ("transport_options", PyVal.list [PyVal.str ""])]]),
  ("best_route_recommendation", PyVal.str "r"),
  ("detailed_travel_plan", PyVal.dict [("day_1", PyVal.str "d")])]

/-- The canonical output of validating `c9x0`: its only option has the
empty-string mode. -/
def c9v1 : PyVal := PyVal.dict [
  ("source", PyVal.str "A"),
  ("destinations", PyVal.list [PyVal.str "B"]),
  ("budget", PyVal.num 1000),
  ("routes", PyVal.list [PyVal.dict [("leg_name", PyVal.str "A -> B"),
    ("transport_options", PyVal.list [PyVal.dict [("mode", PyVal.str ""),
      ("estimated_travel_time", PyVal.str "N/A"),
      ("distance_km", PyVal.num 1),
      ("available_vehicles", PyVal.list [PyVal.str ""]),
      ("estimated_cost", PyVal.dict [("min", PyVal.num 0), ("max", PyVal.num 0),
        ("currency", PyVal.str "INR")]),
      ("route_summary", PyVal.str "")]])]]),
  ("best_route_recommendation", PyVal.str "r"),
  ("detailed_travel_plan", PyVal.dict [("day_1", PyVal.str "d")])]

/-- Re-validating `c9v1` rewrites the falsy empty mode to `Route`. -/
def c9v2 : PyVal := PyVal.dict [
  ("source", PyVal.str "A"),
  ("destinations", PyVal.list [PyVal.str "B"]),
  ("budget", PyVal.num 1000),
  ("routes", PyVal.list [PyVal.dict [("leg_name", PyVal.str "A -> B"),
    ("transport_options", PyVal.list [PyVal.dict [("mode", PyVal.str "Route"),
      ("estimated_travel_time", PyVal.str "N/A"),
      ("distance_km", PyVal.num 1),
      ("available_vehicles", PyVal.list [PyVal.str ""]),
      ("estimated_cost", PyVal.dict [("min", PyVal.num 0), ("max", PyVal.num 0),
        ("currency", PyVal.str "INR")]),
      ("route_summary", PyVal.str "")]])]]),
  ("best_route_recommendation", PyVal.str "r"),
  ("detailed_travel_plan", PyVal.dict [("day_1", PyVal.str "d")])]

/-- C9 counterexample: `c9v1` is a canonical output of validation (it is
what `c9x0` validates to), yet validating it again changes its first
option's mode from the empty string to `Route`, so validation is not
idempotent on all canonical plans. -/
theorem c9_counterexample :
    validate_travel_plan c9x0 = VRes.ok c9v1 ∧
    validate_travel_plan c9v1 = VRes.ok c9v2 ∧
    firstOptionModeOf c9v1 = Option.some (PyVal.str "") ∧
    firstOptionModeOf c9v2 = Option.some (PyVal.str "Route") ∧
    c9v1 ≠ c9v2 := by
  refine ⟨rfl, rfl, rfl, rfl, ?_⟩
  intro h
  have h2 : (Option.some (PyVal.str "") : Option PyVal) = Option.some (PyVal.str "Route") := by
    have h3 := congrArg firstOptionModeOf h
    rwa [show firstOptionModeOf c9v1 = Option.some (PyVal.str "") from rfl,
      show firstOptionModeOf c9v2 = Option.some (PyVal.str "Route") from rfl] at h3
  injection h2 with h4
  injection h4 with h5
  exact absurd h5 (by decide)

/-- A concrete well-formed plan structure with non-empty modes. -/
def c9q : TravelPlanS :=
  ⟨"A", ["B"], 1000,
    [⟨"A -> B", [⟨"Bus", "2 hr", 10, ["Bus"], ⟨100, 200, "INR"⟩, "s"⟩]⟩],
    "r", [("day_1", "d")]⟩

/-- C9 witness: the amended idempotence theorem applied to `c9q`. -/
theorem c9_witness :
    validate_travel_plan (dumpPlan c9q) = VRes.ok (dumpPlan c9q) :=
  c9_idempotence_amended c9q
    (by unfold PlanWF OptionWF CostWF; decide)
    (by unfold ModesWF; decide)
